import Mathlib

/-!
Verification of the eslint-configuration migration
(`crates/biome_cli/src/execute/migrate/eslint.rs` and
`eslint_to_biome.rs`) against its specification.

The Rust code is shallowly embedded: JSON-like input is an inductive
`Value` tree; hash sets and hash maps are association lists whose
operations reproduce the Rust semantics exactly where it matters
(`HashSet::insert` and `extend` keep the existing element when an equal
one is already present, `HashMap` insertion replaces the value);
deserializers are pure functions `Value → Option α`.  Deserialization
diagnostics are not modelled; where a claim is about "no decode is even
attempted" (`RuleConf`'s unit-type short-circuit) the decoder
additionally returns the list of array elements it handed to an option
decoder, so that "no element was passed to an option decoder, hence no
diagnostics were emitted for them" is the statement that this trace is
empty.
-/

/-- Generic parsed value tree (the external JSON parser's output as the
deserializer sees it): numbers, strings, booleans, arrays and maps.
`num` carries the `u64` payload the severity path decodes; a JSON number
outside `u64` already fails the `u64` decode, like the non-number cases
below. -/
inductive Value where
  | num (n : Nat)
  | str (s : String)
  | bool (b : Bool)
  | arr (elems : List Value)
  | map (entries : List (Value × Value))

/-- Three-valued severity, `eslint.rs` lines 442-448. -/
inductive Severity where
  | Off
  | Warn
  | Error
deriving DecidableEq

/-- Helper union for decoding a severity, `eslint.rs` lines 478-482. -/
inductive NumberOrString where
  | Number (n : Nat)
  | String (s : String)
deriving DecidableEq

/-- Deserialization of `NumberOrString`, `eslint.rs` lines 483-495: a
string value decodes as `String`, anything else is decoded as a `u64`
(which fails on every non-number). -/
def NumberOrString.deserialize : Value → Option NumberOrString
  | .str s => some (NumberOrString.String s)
  | .num n => some (NumberOrString.Number n)
  | _ => none

/-- `TryFrom<NumberOrString> for Severity`, `eslint.rs` lines 449-468.
The source returns `Result` with a static error message; no claim
observes the message, so failure is modelled as `none`. -/
def Severity.try_from : NumberOrString → Option Severity
  | .Number n =>
    match n with
    | 0 => some Severity.Off
    | 1 => some Severity.Warn
    | 2 => some Severity.Error
    | _ => none
  | .String s =>
    if s = "off" then some Severity.Off
    else if s = "warn" then some Severity.Warn
    else if s = "error" then some Severity.Error
    else none

/-- Deserialization of `Severity` (the derived
`#[deserializable(try_from = "NumberOrString")]` implementation):
decode a `NumberOrString`, then convert; a conversion error becomes a
decode failure. -/
def Severity.deserialize (v : Value) : Option Severity :=
  (NumberOrString.deserialize v).bind Severity.try_from

/-- Canonical shape of one rule's configured value,
`eslint.rs` lines 339-345.  The Rust defaults `T = ()`, `U = ()` are
written `Unit` at use sites. -/
inductive RuleConf (T : Type) (U : Type) where
  | Severity (severity : Severity)
  | Option (severity : Severity) (primary : T)
  | Options (severity : Severity) (primary : T) (secondary : U)
  | Spread (severity : Severity) (options : List T)
deriving DecidableEq

/-- `RuleConf::severity`, `eslint.rs` lines 346-355.  (Named without the
`RuleConf` namespace because there the constructor `Severity` would
shadow the type.) -/
def ruleConfSeverity {T U : Type} : RuleConf T U → Severity
  | .Severity s => s
  | .Option s _ => s
  | .Options s _ _ => s
  | .Spread s _ => s

/-- `RuleConf::into_vec`, `eslint.rs` lines 356-364. -/
def ruleConfIntoVec {T : Type} : RuleConf T Unit → List T
  | .Severity _ => []
  | .Option _ value => [value]
  | .Options _ value _ => [value]
  | .Spread _ result => result

/-- `RuleConf::option_or_default`, `eslint.rs` lines 365-374. -/
def ruleConfOptionOrDefault {T U : Type} (dflt : T) : RuleConf T U → T
  | .Severity _ => dflt
  | .Option _ option => option
  | .Options _ _ _ => dflt
  | .Spread _ _ => dflt

/-- The `visit_array` body of `RuleConf::deserialize`, `eslint.rs`
lines 387-432, parameterized by the element decoders `decT`, `decU` and
by `tIsUnit`/`uIsUnit`, the outcomes of the source's
`TypeId::of::<T>() == TypeId::of::<()>()` checks (lines 402 and 415).
The input list is the array's elements (the source's
`values.flatten()`).  Besides the decoded `RuleConf` the function
returns the list of elements it passed to an option decoder, in order;
an element absent from that list was never handed to `T::deserialize`
or `U::deserialize`, so no diagnostic was emitted for it. -/
def ruleConfVisitArray {T U : Type} (tIsUnit uIsUnit : Bool)
    (decT : Value → Option T) (decU : Value → Option U) :
    List Value → Option (RuleConf T U) × List Value
  | [] => (none, [])
  | first_value :: values =>
    match Severity.deserialize first_value with
    | none => (none, [])
    | some severity =>
      if tIsUnit then (some (RuleConf.Severity severity), [])
      else
        match values with
        | [] => (some (RuleConf.Severity severity), [])
        | second_value :: values2 =>
          match decT second_value with
          | none =>
            -- Recover by ignoring the failed deserialization
            (some (RuleConf.Severity severity), [second_value])
          | some option =>
            match values2 with
            | [] => (some (RuleConf.Option severity option), [second_value])
            | third_value :: values3 =>
              if !uIsUnit then
                match decU third_value with
                | some option2 =>
                  (some (RuleConf.Options severity option option2),
                    [second_value, third_value])
                | none =>
                  -- Recover by ignoring the failed deserialization
                  (some (RuleConf.Option severity option),
                    [second_value, third_value])
              else
                match decT third_value with
                | none =>
                  -- Recover by ignoring the failed deserialization
                  (some (RuleConf.Option severity option),
                    [second_value, third_value])
                | some option2 =>
                  (some (RuleConf.Spread severity
                      (option :: option2 :: values3.filterMap decT)),
                    second_value :: third_value :: values3)

/-- `RuleConf::deserialize`, `eslint.rs` lines 375-440: a bare number or
string decodes as `Severity` directly; otherwise the array visitor runs
(the visitor expects an array, so any other shape fails). -/
def ruleConfDeserialize {T U : Type} (tIsUnit uIsUnit : Bool)
    (decT : Value → Option T) (decU : Value → Option U) (value : Value) :
    Option (RuleConf T U) × List Value :=
  match value with
  | .num _ => ((Severity.deserialize value).map RuleConf.Severity, [])
  | .str _ => ((Severity.deserialize value).map RuleConf.Severity, [])
  | .arr vs => ruleConfVisitArray tIsUnit uIsUnit decT decU vs
  | _ => (none, [])

/-- Deserialization of a string (`biome_deserialize`'s `String`/`Text`
impls: only a string value succeeds). -/
def decodeString : Value → Option String
  | .str s => some s
  | _ => none

/-- Deserialization of a boolean (`biome_deserialize`'s `bool` impl). -/
def decodeBool : Value → Option Bool
  | .bool b => some b
  | _ => none

/-- Modelled from the spec: element-wise decoding of an array into a
list (`biome_deserialize`'s `Vec<T>` impl is not among the sources;
spec section 4.1: "arrays decode element-wise", section 7: drop only the
offending fragment and continue). -/
def decodeList {T : Type} (dec : Value → Option T) : Value → Option (List T)
  | .arr vs => some (vs.filterMap dec)
  | _ => none

/-- The decoder for the unit option type `()`.  It is never invoked:
`RuleConf::deserialize` short-circuits on the `TypeId` check before
asking `()` to decode (proved below for the primary slot). -/
def decodeUnit : Value → Option Unit := fun _ => none

/-- Qualifier of a global declaration, `eslint.rs` lines 278-285. -/
inductive GlobalConfQualifier where
  | Off
  | Readable
  | Readonly
  | Writable
  | Writeable
deriving DecidableEq

/-- Modelled from the spec: the derived deserializer of
`GlobalConfQualifier` (the derive macro is not among the sources;
section 4.1): a string matching a variant's camel-cased name decodes to
that variant, anything else fails. -/
def GlobalConfQualifier.deserialize : Value → Option GlobalConfQualifier
  | .str s =>
    if s = "off" then some GlobalConfQualifier.Off
    else if s = "readable" then some GlobalConfQualifier.Readable
    else if s = "readonly" then some GlobalConfQualifier.Readonly
    else if s = "writable" then some GlobalConfQualifier.Writable
    else if s = "writeable" then some GlobalConfQualifier.Writeable
    else none
  | _ => none

/-- A global's configuration: a boolean flag or a qualifier,
`eslint.rs` lines 251-255. -/
inductive GlobalConf where
  | Flag (flag : Bool)
  | Qualifier (qualifier : GlobalConfQualifier)
deriving DecidableEq

/-- `GlobalConf::is_enabled`, `eslint.rs` lines 256-263. -/
def GlobalConf.is_enabled : GlobalConf → Bool
  | .Flag result => result
  | .Qualifier qualifier => !(qualifier == GlobalConfQualifier.Off)

/-- `GlobalConf`'s hand-written deserializer, `eslint.rs` lines
264-276: a string decodes as a qualifier, anything else as a flag. -/
def GlobalConf.deserialize (v : Value) : Option GlobalConf :=
  match v with
  | .str _ => (GlobalConfQualifier.deserialize v).map GlobalConf.Qualifier
  | _ => (decodeBool v).map GlobalConf.Flag

/-- A restricted global with a custom message, `eslint.rs` lines
629-633. -/
structure GlobalWithMessage where
  name : String := ""
  message : String := ""
deriving DecidableEq

/-- Modelled from the spec: the derived deserializer of
`GlobalWithMessage` (section 4.1): an object decodes field-wise, a
failed or missing field keeps its default, anything else fails. -/
def GlobalWithMessage.deserialize : Value → Option GlobalWithMessage
  | .map entries =>
    some (entries.foldl (fun acc e =>
      match e with
      | (.str "name", v) =>
        match decodeString v with
        | some s => { acc with name := s }
        | none => acc
      | (.str "message", v) =>
        match decodeString v with
        | some s => { acc with message := s }
        | none => acc
      | _ => acc) {})
  | _ => none

/-- Option value of the `no-restricted-globals` rule, `eslint.rs` lines
602-606. -/
inductive NoRestrictedGlobal where
  | Plain (name : String)
  | WithMessage (named : GlobalWithMessage)
deriving DecidableEq

/-- `NoRestrictedGlobal::into_name`, `eslint.rs` lines 607-614. -/
def NoRestrictedGlobal.into_name : NoRestrictedGlobal → String
  | .Plain name => name
  | .WithMessage named => named.name

/-- `NoRestrictedGlobal`'s hand-written deserializer, `eslint.rs`
lines 615-628: a string decodes as `Plain`, anything else as
`WithMessage`. -/
def NoRestrictedGlobal.deserialize (v : Value) : Option NoRestrictedGlobal :=
  match v with
  | .str _ => (decodeString v).map NoRestrictedGlobal.Plain
  | _ => (GlobalWithMessage.deserialize v).map NoRestrictedGlobal.WithMessage

/-- Options of `jsx-a11y/aria-role`, `eslint_jsxa11y.rs` lines 10-14. -/
structure AriaRoleOptions where
  allow_invalid_roles : List String := []
  ignore_non_dom : Bool := false
deriving DecidableEq

/-- Modelled from the spec: the derived deserializer of
`AriaRoleOptions` (section 4.1); field keys are the camel-cased field
names. -/
def AriaRoleOptions.deserialize : Value → Option AriaRoleOptions
  | .map entries =>
    some (entries.foldl (fun acc e =>
      match e with
      | (.str "allowInvalidRoles", v) =>
        match decodeList decodeString v with
        | some l => { acc with allow_invalid_roles := l }
        | none => acc
      | (.str "ignoreNonDom", v) =>
        match decodeBool v with
        | some b => { acc with ignore_non_dom := b }
        | none => acc
      | _ => acc) {})
  | _ => none

/-- Array-type spelling, `eslint_typescript.rs` lines 21-28. -/
inductive ArrayType where
  | Array
  | ArraySimple
  | Generic
deriving DecidableEq

/-- Modelled from the spec: the derived deserializer of `ArrayType`
(section 4.1), honouring the `array-simple` rename. -/
def ArrayType.deserialize : Value → Option ArrayType
  | .str s =>
    if s = "array" then some ArrayType.Array
    else if s = "array-simple" then some ArrayType.ArraySimple
    else if s = "generic" then some ArrayType.Generic
    else none
  | _ => none

/-- Options of `@typescript-eslint/array-type`, `eslint_typescript.rs`
lines 9-13. -/
structure ArrayTypeOptions where
  default : ArrayType := ArrayType.Array
  readonly : Option ArrayType := none
deriving DecidableEq

/-- Modelled from the spec: the derived deserializer of
`ArrayTypeOptions` (section 4.1). -/
def ArrayTypeOptions.deserialize : Value → Option ArrayTypeOptions
  | .map entries =>
    some (entries.foldl (fun acc e =>
      match e with
      | (.str "default", v) =>
        match ArrayType.deserialize v with
        | some a => { acc with default := a }
        | none => acc
      | (.str "readonly", v) =>
        match ArrayType.deserialize v with
        | some a => { acc with readonly := some a }
        | none => acc
      | _ => acc) {})
  | _ => none

/-- Case format of `@typescript-eslint/naming-convention`,
`eslint_typescript.rs` lines 164-178. -/
inductive NamingConventionCase where
  | Camel
  | StrictCamel
  | Pascal
  | StrictPascal
  | Snake
  | Upper
deriving DecidableEq

/-- Modelled from the spec: the derived deserializer of
`NamingConventionCase` (section 4.1), honouring the renames. -/
def NamingConventionCase.deserialize : Value → Option NamingConventionCase
  | .str s =>
    if s = "camelCase" then some NamingConventionCase.Camel
    else if s = "strictCamelCase" then some NamingConventionCase.StrictCamel
    else if s = "PascalCase" then some NamingConventionCase.Pascal
    else if s = "StrictPascalCase" then some NamingConventionCase.StrictPascal
    else if s = "snake_case" then some NamingConventionCase.Snake
    else if s = "UPPER_CASE" then some NamingConventionCase.Upper
    else none
  | _ => none

/-- Selector of `@typescript-eslint/naming-convention`,
`eslint_typescript.rs` lines 179-210. -/
inductive Selector where
  | ClassicAccessor
  | AutoAccessor
  | Class
  | ClassMethod
  | ClassProperty
  | Enum
  | EnumMember
  | Function
  | Import
  | Interface
  | ObjectLiteralMethod
  | ObjectLiteralProperty
  | Parameter
  | ParameterProperty
  | TypeAlias
  | TypeMethod
  | TypeParameter
  | TypeProperty
  | Variable
  | Default
  | Accessor
  | MemberLike
  | Method
  | Property
  | TypeLike
  | VariableLike
deriving DecidableEq

/-- Modelled from the spec: the derived deserializer of `Selector`
(section 4.1): the camel-cased variant name. -/
def Selector.deserialize : Value → Option Selector
  | .str s =>
    if s = "classicAccessor" then some Selector.ClassicAccessor
    else if s = "autoAccessor" then some Selector.AutoAccessor
    else if s = "class" then some Selector.Class
    else if s = "classMethod" then some Selector.ClassMethod
    else if s = "classProperty" then some Selector.ClassProperty
    else if s = "enum" then some Selector.Enum
    else if s = "enumMember" then some Selector.EnumMember
    else if s = "function" then some Selector.Function
    else if s = "import" then some Selector.Import
    else if s = "interface" then some Selector.Interface
    else if s = "objectLiteralMethod" then some Selector.ObjectLiteralMethod
    else if s = "objectLiteralProperty" then some Selector.ObjectLiteralProperty
    else if s = "parameter" then some Selector.Parameter
    else if s = "parameterProperty" then some Selector.ParameterProperty
    else if s = "typeAlias" then some Selector.TypeAlias
    else if s = "typeMethod" then some Selector.TypeMethod
    else if s = "typeParameter" then some Selector.TypeParameter
    else if s = "typeProperty" then some Selector.TypeProperty
    else if s = "variable" then some Selector.Variable
    else if s = "default" then some Selector.Default
    else if s = "accessor" then some Selector.Accessor
    else if s = "memberLike" then some Selector.MemberLike
    else if s = "method" then some Selector.Method
    else if s = "property" then some Selector.Property
    else if s = "typeLike" then some Selector.TypeLike
    else if s = "variableLike" then some Selector.VariableLike
    else none
  | _ => none

/-- Modifier of `@typescript-eslint/naming-convention`,
`eslint_typescript.rs` lines 211-229. -/
inductive Modifier where
  | Abstract
  | Async
  | Const
  | Destructured
  | Exported
  | Global
  | Override
  | Private
  | Protected
  | Public
  | Readonly
  | RequiresQuotes
  | SharpPrivate
  | Static
  | Unused
deriving DecidableEq

/-- Modelled from the spec: the derived deserializer of `Modifier`
(section 4.1), honouring the `#private` rename. -/
def Modifier.deserialize : Value → Option Modifier
  | .str s =>
    if s = "abstract" then some Modifier.Abstract
    else if s = "async" then some Modifier.Async
    else if s = "const" then some Modifier.Const
    else if s = "destructured" then some Modifier.Destructured
    else if s = "exported" then some Modifier.Exported
    else if s = "global" then some Modifier.Global
    else if s = "override" then some Modifier.Override
    else if s = "private" then some Modifier.Private
    else if s = "protected" then some Modifier.Protected
    else if s = "public" then some Modifier.Public
    else if s = "readonly" then some Modifier.Readonly
    else if s = "requiresQuotes" then some Modifier.RequiresQuotes
    else if s = "#private" then some Modifier.SharpPrivate
    else if s = "static" then some Modifier.Static
    else if s = "unused" then some Modifier.Unused
    else none
  | _ => none

/-- Value-type filter of `@typescript-eslint/naming-convention`,
`eslint_typescript.rs` lines 230-237 (the source names this enum
`Type`, a keyword in Lean, hence the longer name). -/
inductive NamingType where
  | Array
  | Boolean
  | Function
  | Number
  | String
deriving DecidableEq

/-- Modelled from the spec: the derived deserializer of `NamingType`
(section 4.1). -/
def NamingType.deserialize : Value → Option NamingType
  | .str s =>
    if s = "array" then some NamingType.Array
    else if s = "boolean" then some NamingType.Boolean
    else if s = "function" then some NamingType.Function
    else if s = "number" then some NamingType.Number
    else if s = "string" then some NamingType.String
    else none
  | _ => none

/-- Underscore policy of `@typescript-eslint/naming-convention`,
`eslint_typescript.rs` lines 238-246. -/
inductive Underscore where
  | Forbid
  | Require
  | RequireDouble
  | Allow
  | AllowDouble
  | AllowSingleOrDouble
deriving DecidableEq

/-- Modelled from the spec: the derived deserializer of `Underscore`
(section 4.1). -/
def Underscore.deserialize : Value → Option Underscore
  | .str s =>
    if s = "forbid" then some Underscore.Forbid
    else if s = "require" then some Underscore.Require
    else if s = "requireDouble" then some Underscore.RequireDouble
    else if s = "allow" then some Underscore.Allow
    else if s = "allowDouble" then some Underscore.AllowDouble
    else if s = "allowSingleOrDouble" then some Underscore.AllowSingleOrDouble
    else none
  | _ => none

/-- A field accepting one scalar or an array of scalars, normalized to a
list, `eslint.rs` lines 300-324. -/
structure Shorthand (T : Type) where
  toList : List T
deriving DecidableEq

/-- `Merge for Shorthand`, `eslint.rs` lines 302-306: list append. -/
def Shorthand.mergeWith {T : Type} (self other : Shorthand T) : Shorthand T :=
  Shorthand.mk (self.toList ++ other.toList)

/-- `Shorthand`'s emptiness, via its `Deref` to the inner vector. -/
def Shorthand.isEmpty {T : Type} (s : Shorthand T) : Bool :=
  s.toList.isEmpty

/-- `Shorthand`'s deserializer, `eslint.rs` lines 325-337: an array
decodes element-wise, any other value decodes as a singleton. -/
def Shorthand.deserialize {T : Type} (dec : Value → Option T) (v : Value) :
    Option (Shorthand T) :=
  match v with
  | .arr _ => (decodeList dec v).map Shorthand.mk
  | _ => (dec v).map (fun x => Shorthand.mk [x])

/-- One selector of `@typescript-eslint/naming-convention`,
`eslint_typescript.rs` lines 126-139 (commented-out fields omitted as
in the source). -/
structure NamingConventionSelection where
  selector : Shorthand Selector := Shorthand.mk []
  modifiers : Option (List Modifier) := none
  types : Option (List NamingType) := none
  format : Option (List NamingConventionCase) := none
  leading_underscore : Option Underscore := none
  trailing_underscore : Option Underscore := none
deriving DecidableEq

/-- Modelled from the spec: the derived deserializer of
`NamingConventionSelection` (section 4.1; `unknown_fields = "allow"`):
an object decodes field-wise under camel-cased keys, anything else
fails. -/
def NamingConventionSelection.deserialize :
    Value → Option NamingConventionSelection
  | .map entries =>
    some (entries.foldl (fun acc e =>
      match e with
      | (.str "selector", v) =>
        match Shorthand.deserialize Selector.deserialize v with
        | some s => { acc with selector := s }
        | none => acc
      | (.str "modifiers", v) =>
        match decodeList Modifier.deserialize v with
        | some l => { acc with modifiers := some l }
        | none => acc
      | (.str "types", v) =>
        match decodeList NamingType.deserialize v with
        | some l => { acc with types := some l }
        | none => acc
      | (.str "format", v) =>
        match decodeList NamingConventionCase.deserialize v with
        | some l => { acc with format := some l }
        | none => acc
      | (.str "leadingUnderscore", v) =>
        match Underscore.deserialize v with
        | some u => { acc with leading_underscore := some u }
        | none => acc
      | (.str "trailingUnderscore", v) =>
        match Underscore.deserialize v with
        | some u => { acc with trailing_underscore := some u }
        | none => acc
      | _ => acc) {})
  | _ => none

/-- Filename case, `eslint_unicorn.rs` lines 30-41. -/
inductive FilenameCase where
  | Kebab
  | Camel
  | Snake
  | Pascal
deriving DecidableEq

/-- Modelled from the spec: the derived deserializer of `FilenameCase`
(section 4.1), honouring the renames. -/
def FilenameCase.deserialize : Value → Option FilenameCase
  | .str s =>
    if s = "kebabCase" then some FilenameCase.Kebab
    else if s = "camelCase" then some FilenameCase.Camel
    else if s = "snakeCase" then some FilenameCase.Snake
    else if s = "pascalCase" then some FilenameCase.Pascal
    else none
  | _ => none

/-- Allowed filename cases as a bitset, `eslint_unicorn.rs` lines
53-59. -/
structure FilenameCases where
  kebab_case : Bool := false
  camel_case : Bool := false
  snake_case : Bool := false
  pascal_case : Bool := false
deriving DecidableEq

/-- Modelled from the spec: the derived deserializer of
`FilenameCases` (section 4.1). -/
def FilenameCases.deserialize : Value → Option FilenameCases
  | .map entries =>
    some (entries.foldl (fun acc e =>
      match e with
      | (.str "kebabCase", v) =>
        match decodeBool v with
        | some b => { acc with kebab_case := b }
        | none => acc
      | (.str "camelCase", v) =>
        match decodeBool v with
        | some b => { acc with camel_case := b }
        | none => acc
      | (.str "snakeCase", v) =>
        match decodeBool v with
        | some b => { acc with snake_case := b }
        | none => acc
      | (.str "pascalCase", v) =>
        match decodeBool v with
        | some b => { acc with pascal_case := b }
        | none => acc
      | _ => acc) {})
  | _ => none

/-- Options of `unicorn/filename-case`, `eslint_unicorn.rs` lines
11-17. -/
structure FilenameCaseOptions where
  case : FilenameCase := FilenameCase.Kebab
  cases : FilenameCases := {}
  ignore : List String := []
  multiple_file_extensions : Bool := false
deriving DecidableEq

/-- Modelled from the spec: the derived deserializer of
`FilenameCaseOptions` (section 4.1). -/
def FilenameCaseOptions.deserialize : Value → Option FilenameCaseOptions
  | .map entries =>
    some (entries.foldl (fun acc e =>
      match e with
      | (.str "case", v) =>
        match FilenameCase.deserialize v with
        | some c => { acc with case := c }
        | none => acc
      | (.str "cases", v) =>
        match FilenameCases.deserialize v with
        | some c => { acc with cases := c }
        | none => acc
      | (.str "ignore", v) =>
        match decodeList decodeString v with
        | some l => { acc with ignore := l }
        | none => acc
      | (.str "multipleFileExtensions", v) =>
        match decodeBool v with
        | some b => { acc with multiple_file_extensions := b }
        | none => acc
      | _ => acc) {})
  | _ => none

/-- A configured rule, `eslint.rs` lines 635-647: either `Any` (name
and severity, options not modelled) or one of the closed set of rules
with hand-modeled options.  The `Box` wrappers of the source are
elided. -/
inductive Rule where
  | Any (name : String) (severity : Severity)
  | NoRestrictedGlobals (conf : RuleConf NoRestrictedGlobal Unit)
  | Jsxa11yArioaRoles (conf : RuleConf AriaRoleOptions Unit)
  | TypeScriptArrayType (conf : RuleConf ArrayTypeOptions Unit)
  | TypeScriptNamingConvention (conf : RuleConf NamingConventionSelection Unit)
  | UnicornFilenameCase (conf : RuleConf FilenameCaseOptions Unit)
deriving DecidableEq

/-- `Rule::new`, `eslint.rs` lines 648-662 (note the source's
`naming_convention` spelling with an underscore, kept as written). -/
def Rule.new (name : String) (severity : Severity) : Rule :=
  if name = "no-restricted-globals" then
    Rule.NoRestrictedGlobals (RuleConf.Severity severity)
  else if name = "jsx-a11y/aria-role" then
    Rule.Jsxa11yArioaRoles (RuleConf.Severity severity)
  else if name = "@typescript-eslint/array-type" then
    Rule.TypeScriptArrayType (RuleConf.Severity severity)
  else if name = "@typescript-eslint/naming_convention" then
    Rule.TypeScriptNamingConvention (RuleConf.Severity severity)
  else if name = "unicorn/filename-case" then
    Rule.UnicornFilenameCase (RuleConf.Severity severity)
  else
    Rule.Any name severity

/-- `Rule::name`, `eslint.rs` lines 664-675.  In the source this is
also the `PartialEq`/`Hash` key of `Rule` (lines 677-687): two rules
are equal in the Rust set exactly when their names are equal, so every
set operation below compares rules by `ruleName` alone. -/
def ruleName : Rule → String
  | .Any name _ => name
  | .NoRestrictedGlobals _ => "no-restricted-globals"
  | .Jsxa11yArioaRoles _ => "jsx-a11y/aria-role"
  | .TypeScriptArrayType _ => "@typescript-eslint/array-type"
  | .TypeScriptNamingConvention _ => "@typescript-eslint/naming_convention"
  | .UnicornFilenameCase _ => "unicorn/filename-case"

/-- The name-keyed rule set `Rules`, `eslint.rs` line 497: an
`FxHashSet<Rule>` whose equality and hashing are by rule name.  It is
modelled as the list of its elements in insertion order; every
operation on it compares elements by name, as the Rust `PartialEq` for
`Rule` does. -/
abbrev Rules : Type := List Rule

/-- The empty rule set (`Rules::default`). -/
def Rules.empty : Rules := []

/-- First element with the given name, as `HashSet` lookup through the
name-only equality of `Rule`. -/
def Rules.find (rs : Rules) (n : String) : Option Rule :=
  List.find? (fun r => ruleName r == n) rs

/-- `HashSet::insert` through the name-only equality of `Rule`: if an
element with the same name is present, the set is NOT modified (Rust's
`HashSet::insert` keeps the existing element); otherwise the rule is
added. -/
def Rules.insert (rs : Rules) (r : Rule) : Rules :=
  if (Rules.find rs (ruleName r)).isSome then rs else rs ++ [r]

/-- `Merge for Rules`, `eslint.rs` lines 508-512: `self.0.extend(other.0)`,
that is, insert every element of `other` in turn. -/
def Rules.mergeWith (self other : Rules) : Rules :=
  List.foldl Rules.insert self other

/-- `Rules::from_iter`, `eslint.rs` lines 499-507: build each rule with
`Rule::new` and collect into the hash set (sequential insertion). -/
def Rules.fromList (l : List (String × Severity)) : Rules :=
  List.foldl (fun acc p => Rules.insert acc (Rule.new p.1 p.2)) Rules.empty l

/-- Emptiness of a rule set. -/
def Rules.isEmpty (rs : Rules) : Bool :=
  List.isEmpty rs

/-- One (key, value) member of the rules map of `Rules::deserialize`'s
`visit_map`, `eslint.rs` lines 550-593: the key must decode as a
string (otherwise the member is skipped), then the five rules with
hand-modeled options dispatch to their specialized `RuleConf` decoders
and every other name decodes as `RuleConf<(), ()>`, keeping only the
severity.  A failed value decode skips the member. -/
def decodeRuleEntry (e : Value × Value) : Option Rule :=
  match decodeString e.1 with
  | none => none
  | some rule_name =>
    if rule_name = "no-restricted-globals" then
      ((ruleConfDeserialize false true NoRestrictedGlobal.deserialize decodeUnit e.2).1).map
        Rule.NoRestrictedGlobals
    else if rule_name = "jsx-a11y/aria-role" then
      ((ruleConfDeserialize false true AriaRoleOptions.deserialize decodeUnit e.2).1).map
        Rule.Jsxa11yArioaRoles
    else if rule_name = "@typescript-eslint/array-type" then
      ((ruleConfDeserialize false true ArrayTypeOptions.deserialize decodeUnit e.2).1).map
        Rule.TypeScriptArrayType
    else if rule_name = "@typescript-eslint/naming-convention" then
      ((ruleConfDeserialize false true NamingConventionSelection.deserialize decodeUnit e.2).1).map
        Rule.TypeScriptNamingConvention
    else if rule_name = "unicorn/filename-case" then
      ((ruleConfDeserialize false true FilenameCaseOptions.deserialize decodeUnit e.2).1).map
        Rule.UnicornFilenameCase
    else
      ((ruleConfDeserialize true true decodeUnit decodeUnit e.2).1).map
        (fun conf => Rule.Any rule_name (ruleConfSeverity conf))

/-- The `visit_map` body of `Rules::deserialize`, `eslint.rs` lines
536-596: fold the members, inserting each successfully decoded rule
into the hash set. -/
def Rules.visitMap (entries : List (Value × Value)) : Rules :=
  entries.foldl (fun acc e =>
    match decodeRuleEntry e with
    | some r => Rules.insert acc r
    | none => acc) Rules.empty

/-- `Rules::deserialize`, `eslint.rs` lines 526-600: the visitor
expects a map and always produces a set from one (individual bad
members are skipped); any other shape fails. -/
def Rules.deserialize : Value → Option Rules
  | .map entries => some (Rules.visitMap entries)
  | _ => none

/-- An override block, `eslint.rs` lines 287-298: like `ConfigData`
minus `ignore_patterns`, plus the `files`/`excluded_files` scope.
Unknown fields are accepted and dropped by the deserializer and are
not part of the model. -/
structure OverrideConfigData where
  «extends» : Shorthand String := Shorthand.mk []
  env : List (String × Bool) := []
  globals : List (String × GlobalConf) := []
  excluded_files : Shorthand String := Shorthand.mk []
  files : Shorthand String := Shorthand.mk []
  rules : Rules := Rules.empty
deriving DecidableEq

/-- The top-level parsed configuration, `eslint.rs` lines 123-134.
The hash maps `env` and `globals` are modelled as association lists;
inputs of interest have unique keys, and the claims below only use
membership. -/
structure ConfigData where
  «extends» : Shorthand String := Shorthand.mk []
  env : List (String × Bool) := []
  globals : List (String × GlobalConf) := []
  ignore_patterns : Shorthand String := Shorthand.mk []
  rules : Rules := Rules.empty
  overrides : List OverrideConfigData := []
deriving DecidableEq

/-- `HashMap::extend`: inserting an entry whose key is present replaces
the stored value (position immaterial in this model); a new key is
appended. -/
def mapExtend {B : Type} (base incoming : List (String × B)) :
    List (String × B) :=
  List.foldl (fun acc p =>
    if (acc.find? (fun q => q.1 == p.1)).isSome then
      acc.map (fun q => if q.1 == p.1 then p else q)
    else acc ++ [p]) base incoming

/-- `Merge for ConfigData`, `eslint.rs` lines 240-249: `extends` and
`ignore_patterns` append, `env` and `globals` extend (map union, later
replaces), `rules` merge as a set, `overrides` append. -/
def ConfigData.mergeWith (self other : ConfigData) : ConfigData :=
  { «extends» := Shorthand.mergeWith self.«extends» other.«extends»,
    env := mapExtend self.env other.env,
    globals := mapExtend self.globals other.globals,
    ignore_patterns :=
      Shorthand.mergeWith self.ignore_patterns other.ignore_patterns,
    rules := Rules.mergeWith self.rules other.rules,
    overrides := self.overrides ++ other.overrides }
/-
Static preset tables, transcribed verbatim from the sources:
`ESLINT_RECOMMENDED` and `ESLINT_ALL` from `eslint.rs` lines 689-957,
the plugin tables from `eslint_barrel.rs`, `eslint_import.rs`,
`eslint_jsxa11y.rs`, `eslint_react.rs`, `eslint_react_hooks.rs`,
`eslint_typescript.rs` and `eslint_unicorn.rs`.
-/
def ESLINT_RECOMMENDED : List (String × Severity) := [
  ("constructor-super", Severity.Error),
  ("for-direction", Severity.Error),
  ("getter-return", Severity.Error),
  ("no-async-promise-executor", Severity.Error),
  ("no-case-declarations", Severity.Error),
  ("no-class-assign", Severity.Error),
  ("no-compare-neg-zero", Severity.Error),
  ("no-cond-assign", Severity.Error),
  ("no-const-assign", Severity.Error),
  ("no-constant-binary-expression", Severity.Error),
  ("no-constant-condition", Severity.Error),
  ("no-control-regex", Severity.Error),
  ("no-debugger", Severity.Error),
  ("no-delete-var", Severity.Error),
  ("no-dupe-args", Severity.Error),
  ("no-dupe-class-members", Severity.Error),
  ("no-dupe-else-if", Severity.Error),
  ("no-dupe-keys", Severity.Error),
  ("no-duplicate-case", Severity.Error),
  ("no-empty", Severity.Error),
  ("no-empty-character-class", Severity.Error),
  ("no-empty-pattern", Severity.Error),
  ("no-empty-static-block", Severity.Error),
  ("no-ex-assign", Severity.Error),
  ("no-extra-boolean-cast", Severity.Error),
  ("no-fallthrough", Severity.Error),
  ("no-func-assign", Severity.Error),
  ("no-global-assign", Severity.Error),
  ("no-import-assign", Severity.Error),
  ("no-invalid-regexp", Severity.Error),
  ("no-irregular-whitespace", Severity.Error),
  ("no-loss-of-precision", Severity.Error),
  ("no-misleading-character-class", Severity.Error),
  ("no-new-native-nonconstructor", Severity.Error),
  ("no-nonoctal-decimal-escape", Severity.Error),
  ("no-obj-calls", Severity.Error),
  ("no-octal", Severity.Error),
  ("no-prototype-builtins", Severity.Error),
  ("no-redeclare", Severity.Error),
  ("no-regex-spaces", Severity.Error),
  ("no-self-assign", Severity.Error),
  ("no-setter-return", Severity.Error),
  ("no-shadow-restricted-names", Severity.Error),
  ("no-sparse-arrays", Severity.Error),
  ("no-this-before-super", Severity.Error),
  ("no-undef", Severity.Error),
  ("no-unexpected-multiline", Severity.Error),
  ("no-unreachable", Severity.Error),
  ("no-unsafe-finally", Severity.Error),
  ("no-unsafe-negation", Severity.Error),
  ("no-unsafe-optional-chaining", Severity.Error),
  ("no-unused-labels", Severity.Error),
  ("no-unused-private-class-members", Severity.Error),
  ("no-unused-vars", Severity.Error),
  ("no-useless-backreference", Severity.Error),
  ("no-useless-catch", Severity.Error),
  ("no-useless-escape", Severity.Error),
  ("no-with", Severity.Error),
  ("require-yield", Severity.Error),
  ("use-isnan", Severity.Error),
  ("valid-typeof", Severity.Error)
]

def ESLINT_ALL : List (String × Severity) := [
  ("accessor-pairs", Severity.Error),
  ("array-callback-return", Severity.Error),
  ("arrow-body-style", Severity.Error),
  ("block-scoped-var", Severity.Error),
  ("camelcase", Severity.Error),
  ("capitalized-comments", Severity.Error),
  ("class-methods-use-this", Severity.Error),
  ("complexity", Severity.Error),
  ("consistent-return", Severity.Error),
  ("consistent-this", Severity.Error),
  ("constructor-super", Severity.Error),
  ("curly", Severity.Error),
  ("default-case", Severity.Error),
  ("default-case-last", Severity.Error),
  ("default-param-last", Severity.Error),
  ("dot-notation", Severity.Error),
  ("eqeqeq", Severity.Error),
  ("for-direction", Severity.Error),
  ("func-name-matching", Severity.Error),
  ("func-names", Severity.Error),
  ("func-style", Severity.Error),
  ("getter-return", Severity.Error),
  ("grouped-accessor-pairs", Severity.Error),
  ("guard-for-in", Severity.Error),
  ("id-denylist", Severity.Error),
  ("id-length", Severity.Error),
  ("id-match", Severity.Error),
  ("init-declarations", Severity.Error),
  ("line-comment-position", Severity.Error),
  ("logical-assignment-operators", Severity.Error),
  ("max-classes-per-file", Severity.Error),
  ("max-depth", Severity.Error),
  ("max-lines", Severity.Error),
  ("max-lines-per-function", Severity.Error),
  ("max-nested-callbacks", Severity.Error),
  ("max-params", Severity.Error),
  ("max-statements", Severity.Error),
  ("multiline-comment-style", Severity.Error),
  ("new-cap", Severity.Error),
  ("no-alert", Severity.Error),
  ("no-array-constructor", Severity.Error),
  ("no-async-promise-executor", Severity.Error),
  ("no-await-in-loop", Severity.Error),
  ("no-bitwise", Severity.Error),
  ("no-caller", Severity.Error),
  ("no-case-declarations", Severity.Error),
  ("no-class-assign", Severity.Error),
  ("no-compare-neg-zero", Severity.Error),
  ("no-cond-assign", Severity.Error),
  ("no-console", Severity.Error),
  ("no-const-assign", Severity.Error),
  ("no-constant-binary-expression", Severity.Error),
  ("no-constant-condition", Severity.Error),
  ("no-constructor-return", Severity.Error),
  ("no-continue", Severity.Error),
  ("no-control-regex", Severity.Error),
  ("no-debugger", Severity.Error),
  ("no-delete-var", Severity.Error),
  ("no-div-regex", Severity.Error),
  ("no-dupe-args", Severity.Error),
  ("no-dupe-class-members", Severity.Error),
  ("no-dupe-else-if", Severity.Error),
  ("no-dupe-keys", Severity.Error),
  ("no-duplicate-case", Severity.Error),
  ("no-duplicate-imports", Severity.Error),
  ("no-else-return", Severity.Error),
  ("no-empty", Severity.Error),
  ("no-empty-character-class", Severity.Error),
  ("no-empty-function", Severity.Error),
  ("no-empty-pattern", Severity.Error),
  ("no-empty-static-block", Severity.Error),
  ("no-eq-null", Severity.Error),
  ("no-eval", Severity.Error),
  ("no-ex-assign", Severity.Error),
  ("no-extend-native", Severity.Error),
  ("no-extra-bind", Severity.Error),
  ("no-extra-boolean-cast", Severity.Error),
  ("no-extra-label", Severity.Error),
  ("no-fallthrough", Severity.Error),
  ("no-func-assign", Severity.Error),
  ("no-global-assign", Severity.Error),
  ("no-implicit-coercion", Severity.Error),
  ("no-implicit-globals", Severity.Error),
  ("no-implied-eval", Severity.Error),
  ("no-import-assign", Severity.Error),
  ("no-inline-comments", Severity.Error),
  ("no-inner-declarations", Severity.Error),
  ("no-invalid-regexp", Severity.Error),
  ("no-invalid-this", Severity.Error),
  ("no-irregular-whitespace", Severity.Error),
  ("no-iterator", Severity.Error),
  ("no-label-var", Severity.Error),
  ("no-labels", Severity.Error),
  ("no-lone-blocks", Severity.Error),
  ("no-lonely-if", Severity.Error),
  ("no-loop-func", Severity.Error),
  ("no-loss-of-precision", Severity.Error),
  ("no-magic-numbers", Severity.Error),
  ("no-misleading-character-class", Severity.Error),
  ("no-multi-assign", Severity.Error),
  ("no-multi-str", Severity.Error),
  ("no-negated-condition", Severity.Error),
  ("no-nested-ternary", Severity.Error),
  ("no-new", Severity.Error),
  ("no-new-func", Severity.Error),
  ("no-new-native-nonconstructor", Severity.Error),
  ("no-new-wrappers", Severity.Error),
  ("no-nonoctal-decimal-escape", Severity.Error),
  ("no-obj-calls", Severity.Error),
  ("no-object-constructor", Severity.Error),
  ("no-octal", Severity.Error),
  ("no-octal-escape", Severity.Error),
  ("no-param-reassign", Severity.Error),
  ("no-plusplus", Severity.Error),
  ("no-promise-executor-return", Severity.Error),
  ("no-proto", Severity.Error),
  ("no-prototype-builtins", Severity.Error),
  ("no-redeclare", Severity.Error),
  ("no-regex-spaces", Severity.Error),
  ("no-restricted-exports", Severity.Error),
  ("no-restricted-globals", Severity.Error),
  ("no-restricted-imports", Severity.Error),
  ("no-restricted-properties", Severity.Error),
  ("no-restricted-syntax", Severity.Error),
  ("no-return-assign", Severity.Error),
  ("no-script-url", Severity.Error),
  ("no-self-assign", Severity.Error),
  ("no-self-compare", Severity.Error),
  ("no-sequences", Severity.Error),
  ("no-setter-return", Severity.Error),
  ("no-shadow", Severity.Error),
  ("no-shadow-restricted-names", Severity.Error),
  ("no-sparse-arrays", Severity.Error),
  ("no-template-curly-in-string", Severity.Error),
  ("no-ternary", Severity.Error),
  ("no-this-before-super", Severity.Error),
  ("no-throw-literal", Severity.Error),
  ("no-undef", Severity.Error),
  ("no-undef-init", Severity.Error),
  ("no-undefined", Severity.Error),
  ("no-underscore-dangle", Severity.Error),
  ("no-unexpected-multiline", Severity.Error),
  ("no-unmodified-loop-condition", Severity.Error),
  ("no-unneeded-ternary", Severity.Error),
  ("no-unreachable", Severity.Error),
  ("no-unreachable-loop", Severity.Error),
  ("no-unsafe-finally", Severity.Error),
  ("no-unsafe-negation", Severity.Error),
  ("no-unsafe-optional-chaining", Severity.Error),
  ("no-unused-expressions", Severity.Error),
  ("no-unused-labels", Severity.Error),
  ("no-unused-private-class-members", Severity.Error),
  ("no-unused-vars", Severity.Error),
  ("no-use-before-define", Severity.Error),
  ("no-useless-assignment", Severity.Error),
  ("no-useless-backreference", Severity.Error),
  ("no-useless-call", Severity.Error),
  ("no-useless-catch", Severity.Error),
  ("no-useless-computed-key", Severity.Error),
  ("no-useless-concat", Severity.Error),
  ("no-useless-constructor", Severity.Error),
  ("no-useless-escape", Severity.Error),
  ("no-useless-rename", Severity.Error),
  ("no-useless-return", Severity.Error),
  ("no-var", Severity.Error),
  ("no-void", Severity.Error),
  ("no-warning-comments", Severity.Error),
  ("no-with", Severity.Error),
  ("object-shorthand", Severity.Error),
  ("one-var", Severity.Error),
  ("operator-assignment", Severity.Error),
  ("prefer-arrow-callback", Severity.Error),
  ("prefer-const", Severity.Error),
  ("prefer-destructuring", Severity.Error),
  ("prefer-exponentiation-operator", Severity.Error),
  ("prefer-named-capture-group", Severity.Error),
  ("prefer-numeric-literals", Severity.Error),
  ("prefer-object-has-own", Severity.Error),
  ("prefer-object-spread", Severity.Error),
  ("prefer-promise-reject-errors", Severity.Error),
  ("prefer-regex-literals", Severity.Error),
  ("prefer-rest-params", Severity.Error),
  ("prefer-spread", Severity.Error),
  ("prefer-template", Severity.Error),
  ("radix", Severity.Error),
  ("require-atomic-updates", Severity.Error),
  ("require-await", Severity.Error),
  ("require-unicode-regexp", Severity.Error),
  ("require-yield", Severity.Error),
  ("sort-imports", Severity.Error),
  ("sort-keys", Severity.Error),
  ("sort-vars", Severity.Error),
  ("strict", Severity.Error),
  ("symbol-description", Severity.Error),
  ("unicode-bom", Severity.Error),
  ("use-isnan", Severity.Error),
  ("valid-typeof", Severity.Error),
  ("vars-on-top", Severity.Error),
  ("yoda", Severity.Error)
]

def eslint_barrel.RECOMMENDED : List (String × Severity) := [
  ("barrel-files/avoid-barrel-files", Severity.Error),
  ("barrel-files/avoid-namespace-import", Severity.Error),
  ("barrel-files/avoid-re-export-all", Severity.Error)
]

def eslint_import.ERRORS : List (String × Severity) := [
  ("import/named", Severity.Error),
  ("import/namespace", Severity.Error),
  ("import/default", Severity.Error),
  ("import/export", Severity.Error)
]

def eslint_import.WARNINGS : List (String × Severity) := [
  ("import/no-named-as-default", Severity.Warn),
  ("import/no-named-as-default-member", Severity.Warn),
  ("import/no-duplicates", Severity.Warn)
]

def eslint_jsxa11y.DISABLED_IN_RECOMMENDED : List (String × Severity) := [
  ("jsx-a11y/anchor-ambiguous-text", Severity.Off)
]

def eslint_jsxa11y.STRICT : List (String × Severity) := [
  ("jsx-a11y/alt-text", Severity.Error),
  ("jsx-a11y/anchor-has-content", Severity.Error),
  ("jsx-a11y/anchor-is-valid", Severity.Error),
  ("jsx-a11y/aria-activedescendant-has-tabindex", Severity.Error),
  ("jsx-a11y/aria-props", Severity.Error),
  ("jsx-a11y/aria-proptypes", Severity.Error),
  ("jsx-a11y/aria-role", Severity.Error),
  ("jsx-a11y/aria-unsupported-elements", Severity.Error),
  ("jsx-a11y/autocomplete-valid", Severity.Error),
  ("jsx-a11y/click-events-have-key-events", Severity.Error),
  ("jsx-a11y/control-has-associated-label", Severity.Off),
  ("jsx-a11y/heading-has-content", Severity.Error),
  ("jsx-a11y/html-has-lang", Severity.Error),
  ("jsx-a11y/iframe-has-title", Severity.Error),
  ("jsx-a11y/img-redundant-alt", Severity.Error),
  ("jsx-a11y/interactive-supports-focus", Severity.Error),
  ("jsx-a11y/label-has-for", Severity.Off),
  ("jsx-a11y/label-has-associated-control", Severity.Error),
  ("jsx-a11y/media-has-caption", Severity.Error),
  ("jsx-a11y/mouse-events-have-key-events", Severity.Error),
  ("jsx-a11y/no-access-key", Severity.Error),
  ("jsx-a11y/no-autofocus", Severity.Error),
  ("jsx-a11y/no-distracting-elements", Severity.Error),
  ("jsx-a11y/no-interactive-element-to-noninteractive-role", Severity.Error),
  ("jsx-a11y/no-noninteractive-element-interactions", Severity.Error),
  ("jsx-a11y/no-noninteractive-element-to-interactive-role", Severity.Error),
  ("jsx-a11y/no-noninteractive-tabindex", Severity.Error),
  ("jsx-a11y/no-redundant-roles", Severity.Error),
  ("jsx-a11y/no-static-element-interactions", Severity.Error),
  ("jsx-a11y/role-has-required-aria-props", Severity.Error),
  ("jsx-a11y/role-supports-aria-props", Severity.Error),
  ("jsx-a11y/scope", Severity.Error),
  ("jsx-a11y/tabindex-no-positive", Severity.Error)
]

def eslint_react.JSX_RUNTIME : List (String × Severity) := [
  ("react/react-in-jsx-scope", Severity.Off),
  ("react/jsx-uses-react", Severity.Off)
]

def eslint_react.RECOMMENDED : List (String × Severity) := [
  ("react/display-name", Severity.Error),
  ("react/jsx-key", Severity.Error),
  ("react/jsx-no-comment-textnodes", Severity.Error),
  ("react/jsx-no-duplicate-props", Severity.Error),
  ("react/jsx-no-target-blank", Severity.Error),
  ("react/jsx-no-undef", Severity.Error),
  ("react/jsx-uses-react", Severity.Error),
  ("react/jsx-uses-vars", Severity.Error),
  ("react/no-children-prop", Severity.Error),
  ("react/no-danger-with-children", Severity.Error),
  ("react/no-deprecated", Severity.Error),
  ("react/no-direct-mutation-state", Severity.Error),
  ("react/no-find-dom-node", Severity.Error),
  ("react/no-is-mounted", Severity.Error),
  ("react/no-render-return-value", Severity.Error),
  ("react/no-string-refs", Severity.Error),
  ("react/no-unescaped-entities", Severity.Error),
  ("react/no-unknown-property", Severity.Error),
  ("react/no-unsafe", Severity.Error),
  ("react/prop-types", Severity.Error),
  ("react/react-in-jsx-scope", Severity.Error),
  ("react/require-render-return", Severity.Error)
]

def eslint_react.NON_RECOMMENDED : List (String × Severity) := [
  ("react/boolean-prop-naming", Severity.Error),
  ("react/button-has-type", Severity.Error),
  ("react/checked-requires-onchange-or-readonly", Severity.Error),
  ("react/default-props-match-prop-types", Severity.Error),
  ("react/destructuring-assignment", Severity.Error),
  ("react/forbid-component-props", Severity.Error),
  ("react/forbid-dom-props", Severity.Error),
  ("react/forbid-elements", Severity.Error),
  ("react/forbid-foreign-prop-types", Severity.Error),
  ("react/forbid-prop-types", Severity.Error),
  ("react/function-component-definition", Severity.Error),
  ("react/hook-use-state", Severity.Error),
  ("react/iframe-missing-sandbox", Severity.Error),
  ("react/index", Severity.Error),
  ("react/jsx-boolean-value", Severity.Error),
  ("react/jsx-child-element-spacing", Severity.Error),
  ("react/jsx-closing-bracket-location", Severity.Error),
  ("react/jsx-closing-tag-location", Severity.Error),
  ("react/jsx-curly-brace-presence", Severity.Error),
  ("react/jsx-curly-newline", Severity.Error),
  ("react/jsx-curly-spacing", Severity.Error),
  ("react/jsx-equals-spacing", Severity.Error),
  ("react/jsx-filename-extension", Severity.Error),
  ("react/jsx-first-prop-new-line", Severity.Error),
  ("react/jsx-fragments", Severity.Error),
  ("react/jsx-handler-names", Severity.Error),
  ("react/jsx-indent", Severity.Error),
  ("react/jsx-indent-props", Severity.Error),
  ("react/jsx-max-depth", Severity.Error),
  ("react/jsx-max-props-per-line", Severity.Error),
  ("react/jsx-newline", Severity.Error),
  ("react/jsx-no-bind", Severity.Error),
  ("react/jsx-no-constructed-context-values", Severity.Error),
  ("react/jsx-no-leaked-render", Severity.Error),
  ("react/jsx-no-literals", Severity.Error),
  ("react/jsx-no-script-url", Severity.Error),
  ("react/jsx-no-useless-fragment", Severity.Error),
  ("react/jsx-one-expression-per-line", Severity.Error),
  ("react/jsx-pascal-case", Severity.Error),
  ("react/jsx-props-no-multi-spaces", Severity.Error),
  ("react/jsx-props-no-spreading", Severity.Error),
  ("react/jsx-sort-default-props", Severity.Error),
  ("react/jsx-sort-props", Severity.Error),
  ("react/jsx-space-before-closing", Severity.Error),
  ("react/jsx-tag-spacing", Severity.Error),
  ("react/jsx-wrap-multilines", Severity.Error),
  ("react/no-access-state-in-setstate", Severity.Error),
  ("react/no-adjacent-inline-elements", Severity.Error),
  ("react/no-array-index-key", Severity.Error),
  ("react/no-arrow-function-lifecycle", Severity.Error),
  ("react/no-danger", Severity.Error),
  ("react/no-did-mount-set-state", Severity.Error),
  ("react/no-did-update-set-state", Severity.Error),
  ("react/no-invalid-html-attribute", Severity.Error),
  ("react/no-multi-comp", Severity.Error),
  ("react/no-namespace", Severity.Error),
  ("react/no-object-type-as-default-prop", Severity.Error),
  ("react/no-redundant-should-component-update", Severity.Error),
  ("react/no-set-state", Severity.Error),
  ("react/no-this-in-sfc", Severity.Error),
  ("react/no-typos", Severity.Error),
  ("react/no-unstable-nested-components", Severity.Error),
  ("react/no-unused-class-component-methods", Severity.Error),
  ("react/no-unused-prop-types", Severity.Error),
  ("react/no-unused-state", Severity.Error),
  ("react/no-will-update-set-state", Severity.Error),
  ("react/prefer-es6-class", Severity.Error),
  ("react/prefer-exact-props", Severity.Error),
  ("react/prefer-read-only-props", Severity.Error),
  ("react/prefer-stateless-function", Severity.Error),
  ("react/require-default-props", Severity.Error),
  ("react/require-optimization", Severity.Error),
  ("react/self-closing-comp", Severity.Error),
  ("react/sort-comp", Severity.Error),
  ("react/sort-default-props", Severity.Error),
  ("react/sort-prop-types", Severity.Error),
  ("react/state-in-constructor", Severity.Error),
  ("react/static-property-placement", Severity.Error),
  ("react/style-prop-object", Severity.Error),
  ("react/void-dom-elements-no-children", Severity.Error)
]

def eslint_react_hooks.RECOMMENDED : List (String × Severity) := [
  ("react-hooks/rules-of-hooks", Severity.Error),
  ("react-hooks/exhaustive-deps", Severity.Warn)
]

def eslint_typescript.RECOMMENDED : List (String × Severity) := [
  ("@typescript-eslint/ban-ts-comment", Severity.Error),
  ("@typescript-eslint/ban-types", Severity.Error),
  ("no-array-pub(crate) constructor", Severity.Off),
  ("@typescript-eslint/no-array-pub(crate) constructor", Severity.Error),
  ("@typescript-eslint/no-duplicate-enum-values", Severity.Error),
  ("@typescript-eslint/no-explicit-any", Severity.Error),
  ("@typescript-eslint/no-extra-non-null-assertion", Severity.Error),
  ("no-loss-of-precision", Severity.Off),
  ("@typescript-eslint/no-loss-of-precision", Severity.Error),
  ("@typescript-eslint/no-misused-new", Severity.Error),
  ("@typescript-eslint/no-namespace", Severity.Error),
  ("@typescript-eslint/no-non-null-asserted-optional-chain", Severity.Error),
  ("@typescript-eslint/no-this-alias", Severity.Error),
  ("@typescript-eslint/no-unnecessary-type-pub(crate) constraint", Severity.Error),
  ("@typescript-eslint/no-unsafe-declaration-merging", Severity.Error),
  ("no-unused-vars", Severity.Off),
  ("@typescript-eslint/no-unused-vars", Severity.Error),
  ("@typescript-eslint/no-var-requires", Severity.Error),
  ("@typescript-eslint/prefer-as-pub(crate) const", Severity.Error),
  ("@typescript-eslint/triple-slash-reference", Severity.Error)
]

def eslint_typescript.RECOMMENDED_TYPE_CHECKED_ONLY : List (String × Severity) := [
  ("@typescript-eslint/await-thenable", Severity.Error),
  ("@typescript-eslint/no-base-to-string", Severity.Error),
  ("@typescript-eslint/no-duplicate-type-pub(crate) constituents", Severity.Error),
  ("@typescript-eslint/no-floating-promises", Severity.Error),
  ("@typescript-eslint/no-for-in-array", Severity.Error),
  ("no-implied-eval", Severity.Off),
  ("@typescript-eslint/no-implied-eval", Severity.Error),
  ("@typescript-eslint/no-misused-promises", Severity.Error),
  ("@typescript-eslint/no-redundant-type-pub(crate) constituents", Severity.Error),
  ("@typescript-eslint/no-unnecessary-type-assertion", Severity.Error),
  ("@typescript-eslint/no-unsafe-argument", Severity.Error),
  ("@typescript-eslint/no-unsafe-assignment", Severity.Error),
  ("@typescript-eslint/no-unsafe-call", Severity.Error),
  ("@typescript-eslint/no-unsafe-enum-comparison", Severity.Error),
  ("@typescript-eslint/no-unsafe-member-access", Severity.Error),
  ("@typescript-eslint/no-unsafe-return", Severity.Error),
  ("require-await", Severity.Off),
  ("@typescript-eslint/require-await", Severity.Error),
  ("@typescript-eslint/restrict-plus-operands", Severity.Error),
  ("@typescript-eslint/restrict-template-expressions", Severity.Error),
  ("@typescript-eslint/unbound-method", Severity.Error)
]

def eslint_typescript.STRICT : List (String × Severity) := [
  ("@typescript-eslint/ban-ts-comment", Severity.Error),
  ("@typescript-eslint/ban-types", Severity.Error),
  ("no-array-pub(crate) constructor", Severity.Off),
  ("@typescript-eslint/no-array-pub(crate) constructor", Severity.Error),
  ("@typescript-eslint/no-duplicate-enum-values", Severity.Error),
  ("@typescript-eslint/no-dynamic-delete", Severity.Error),
  ("@typescript-eslint/no-explicit-any", Severity.Error),
  ("@typescript-eslint/no-extra-non-null-assertion", Severity.Error),
  ("@typescript-eslint/no-extraneous-class", Severity.Error),
  ("@typescript-eslint/no-invalid-void-type", Severity.Error),
  ("no-loss-of-precision", Severity.Off),
  ("@typescript-eslint/no-loss-of-precision", Severity.Error),
  ("@typescript-eslint/no-misused-new", Severity.Error),
  ("@typescript-eslint/no-namespace", Severity.Error),
  ("@typescript-eslint/no-non-null-asserted-nullish-coalescing", Severity.Error),
  ("@typescript-eslint/no-non-null-asserted-optional-chain", Severity.Error),
  ("@typescript-eslint/no-non-null-assertion", Severity.Error),
  ("@typescript-eslint/no-this-alias", Severity.Error),
  ("@typescript-eslint/no-unnecessary-type-pub(crate) constraint", Severity.Error),
  ("@typescript-eslint/no-unsafe-declaration-merging", Severity.Error),
  ("no-unused-vars", Severity.Off),
  ("@typescript-eslint/no-unused-vars", Severity.Error),
  ("no-useless-pub(crate) constructor", Severity.Off),
  ("@typescript-eslint/no-useless-pub(crate) constructor", Severity.Error),
  ("@typescript-eslint/no-var-requires", Severity.Error),
  ("@typescript-eslint/prefer-as-pub(crate) const", Severity.Error),
  ("@typescript-eslint/prefer-literal-enum-member", Severity.Error),
  ("@typescript-eslint/prefer-ts-expect-error", Severity.Error),
  ("@typescript-eslint/triple-slash-reference", Severity.Error),
  ("@typescript-eslint/unified-signatures", Severity.Error)
]

def eslint_typescript.STRICT_YYPE_CHECKED_ONLY : List (String × Severity) := [
  ("@typescript-eslint/await-thenable", Severity.Error),
  ("@typescript-eslint/no-array-delete", Severity.Error),
  ("@typescript-eslint/no-base-to-string", Severity.Error),
  ("@typescript-eslint/no-confusing-void-expression", Severity.Error),
  ("@typescript-eslint/no-duplicate-type-pub(crate) constituents", Severity.Error),
  ("@typescript-eslint/no-floating-promises", Severity.Error),
  ("@typescript-eslint/no-for-in-array", Severity.Error),
  ("no-implied-eval", Severity.Off),
  ("@typescript-eslint/no-implied-eval", Severity.Error),
  ("@typescript-eslint/no-meaningless-void-operator", Severity.Error),
  ("@typescript-eslint/no-misused-promises", Severity.Error),
  ("@typescript-eslint/no-mixed-enums", Severity.Error),
  ("@typescript-eslint/no-redundant-type-pub(crate) constituents", Severity.Error),
  ("@typescript-eslint/no-unnecessary-boolean-literal-compare", Severity.Error),
  ("@typescript-eslint/no-unnecessary-condition", Severity.Error),
  ("@typescript-eslint/no-unnecessary-type-arguments", Severity.Error),
  ("@typescript-eslint/no-unnecessary-type-assertion", Severity.Error),
  ("@typescript-eslint/no-unsafe-argument", Severity.Error),
  ("@typescript-eslint/no-unsafe-assignment", Severity.Error),
  ("@typescript-eslint/no-unsafe-call", Severity.Error),
  ("@typescript-eslint/no-unsafe-enum-comparison", Severity.Error),
  ("@typescript-eslint/no-unsafe-member-access", Severity.Error),
  ("@typescript-eslint/no-unsafe-return", Severity.Error),
  ("@typescript-eslint/no-useless-template-literals", Severity.Error),
  ("no-throw-literal", Severity.Off),
  ("@typescript-eslint/only-throw-error", Severity.Error),
  ("@typescript-eslint/prefer-includes", Severity.Error),
  ("prefer-promise-reject-errors", Severity.Off),
  ("@typescript-eslint/prefer-promise-reject-errors", Severity.Error),
  ("@typescript-eslint/prefer-reduce-type-parameter", Severity.Error),
  ("@typescript-eslint/prefer-return-this-type", Severity.Error),
  ("require-await", Severity.Off),
  ("@typescript-eslint/require-await", Severity.Error),
  ("@typescript-eslint/restrict-plus-operands", Severity.Error),
  ("@typescript-eslint/restrict-template-expressions", Severity.Error),
  ("@typescript-eslint/unbound-method", Severity.Error),
  ("@typescript-eslint/use-unknown-in-catch-callback-variable", Severity.Error)
]

def eslint_typescript.STYLISTIC : List (String × Severity) := [
  ("@typescript-eslint/adjacent-overload-signatures", Severity.Error),
  ("@typescript-eslint/array-type", Severity.Error),
  ("@typescript-eslint/ban-tslint-comment", Severity.Error),
  ("@typescript-eslint/class-literal-property-style", Severity.Error),
  ("@typescript-eslint/consistent-generic-pub(crate) constructors", Severity.Error),
  ("@typescript-eslint/consistent-indexed-object-style", Severity.Error),
  ("@typescript-eslint/consistent-type-assertions", Severity.Error),
  ("@typescript-eslint/consistent-type-definitions", Severity.Error),
  ("@typescript-eslint/no-confusing-non-null-assertion", Severity.Error),
  ("no-empty-function", Severity.Off),
  ("@typescript-eslint/no-empty-function", Severity.Error),
  ("@typescript-eslint/no-empty-interface", Severity.Error),
  ("@typescript-eslint/no-inferrable-types", Severity.Error),
  ("@typescript-eslint/prefer-for-of", Severity.Error),
  ("@typescript-eslint/prefer-function-type", Severity.Error),
  ("@typescript-eslint/prefer-namespace-keyword", Severity.Error)
]

def eslint_typescript.STYLISTIC_TYPE_CHECKED_ONLY : List (String × Severity) := [
  ("dot-notation", Severity.Off),
  ("@typescript-eslint/dot-notation", Severity.Error),
  ("@typescript-eslint/non-nullable-type-assertion-style", Severity.Error),
  ("@typescript-eslint/prefer-nullish-coalescing", Severity.Error),
  ("@typescript-eslint/prefer-optional-chain", Severity.Error),
  ("@typescript-eslint/prefer-string-starts-ends-with", Severity.Error)
]

def eslint_typescript.DISABLE_TYPE_CHECKED : List (String × Severity) := [
  ("@typescript-eslint/await-thenable", Severity.Off),
  ("@typescript-eslint/consistent-return", Severity.Off),
  ("@typescript-eslint/consistent-type-exports", Severity.Off),
  ("@typescript-eslint/dot-notation", Severity.Off),
  ("@typescript-eslint/naming_convention", Severity.Off),
  ("@typescript-eslint/no-array-delete", Severity.Off),
  ("@typescript-eslint/no-base-to-string", Severity.Off),
  ("@typescript-eslint/no-confusing-void-expression", Severity.Off),
  ("@typescript-eslint/no-duplicate-type-pub(crate) constituents", Severity.Off),
  ("@typescript-eslint/no-floating-promises", Severity.Off),
  ("@typescript-eslint/no-for-in-array", Severity.Off),
  ("@typescript-eslint/no-implied-eval", Severity.Off),
  ("@typescript-eslint/no-meaningless-void-operator", Severity.Off),
  ("@typescript-eslint/no-misused-promises", Severity.Off),
  ("@typescript-eslint/no-mixed-enums", Severity.Off),
  ("@typescript-eslint/no-redundant-type-pub(crate) constituents", Severity.Off),
  ("@typescript-eslint/no-throw-literal", Severity.Off),
  ("@typescript-eslint/no-unnecessary-boolean-literal-compare", Severity.Off),
  ("@typescript-eslint/no-unnecessary-condition", Severity.Off),
  ("@typescript-eslint/no-unnecessary-qualifier", Severity.Off),
  ("@typescript-eslint/no-unnecessary-type-arguments", Severity.Off),
  ("@typescript-eslint/no-unnecessary-type-assertion", Severity.Off),
  ("@typescript-eslint/no-unsafe-argument", Severity.Off),
  ("@typescript-eslint/no-unsafe-assignment", Severity.Off),
  ("@typescript-eslint/no-unsafe-call", Severity.Off),
  ("@typescript-eslint/no-unsafe-enum-comparison", Severity.Off),
  ("@typescript-eslint/no-unsafe-member-access", Severity.Off),
  ("@typescript-eslint/no-unsafe-return", Severity.Off),
  ("@typescript-eslint/no-unsafe-unary-minus", Severity.Off),
  ("@typescript-eslint/no-useless-template-literals", Severity.Off),
  ("@typescript-eslint/non-nullable-type-assertion-style", Severity.Off),
  ("@typescript-eslint/only-throw-error", Severity.Off),
  ("@typescript-eslint/prefer-destructuring", Severity.Off),
  ("@typescript-eslint/prefer-find", Severity.Off),
  ("@typescript-eslint/prefer-includes", Severity.Off),
  ("@typescript-eslint/prefer-nullish-coalescing", Severity.Off),
  ("@typescript-eslint/prefer-optional-chain", Severity.Off),
  ("@typescript-eslint/prefer-promise-reject-errors", Severity.Off),
  ("@typescript-eslint/prefer-readonly", Severity.Off),
  ("@typescript-eslint/prefer-readonly-parameter-types", Severity.Off),
  ("@typescript-eslint/prefer-reduce-type-parameter", Severity.Off),
  ("@typescript-eslint/prefer-regexp-exec", Severity.Off),
  ("@typescript-eslint/prefer-return-this-type", Severity.Off),
  ("@typescript-eslint/prefer-string-starts-ends-with", Severity.Off),
  ("@typescript-eslint/promise-function-async", Severity.Off),
  ("@typescript-eslint/require-array-sort-compare", Severity.Off),
  ("@typescript-eslint/require-await", Severity.Off),
  ("@typescript-eslint/restrict-plus-operands", Severity.Off),
  ("@typescript-eslint/restrict-template-expressions", Severity.Off),
  ("@typescript-eslint/return-await", Severity.Off),
  ("@typescript-eslint/strict-boolean-expressions", Severity.Off),
  ("@typescript-eslint/switch-exhaustiveness-check", Severity.Off),
  ("@typescript-eslint/unbound-method", Severity.Off),
  ("@typescript-eslint/use-unknown-in-catch-callback-variable", Severity.Off)
]

def eslint_typescript.ALL : List (String × Severity) := [
  ("@typescript-eslint/adjacent-overload-signatures", Severity.Error),
  ("@typescript-eslint/array-type", Severity.Error),
  ("@typescript-eslint/await-thenable", Severity.Error),
  ("@typescript-eslint/ban-ts-comment", Severity.Error),
  ("@typescript-eslint/ban-tslint-comment", Severity.Error),
  ("@typescript-eslint/ban-types", Severity.Error),
  ("@typescript-eslint/class-literal-property-style", Severity.Error),
  ("class-methods-use-this", Severity.Off),
  ("@typescript-eslint/class-methods-use-this", Severity.Error),
  ("@typescript-eslint/consistent-generic-pub(crate) constructors", Severity.Error),
  ("@typescript-eslint/consistent-indexed-object-style", Severity.Error),
  ("consistent-return", Severity.Off),
  ("@typescript-eslint/consistent-return", Severity.Error),
  ("@typescript-eslint/consistent-type-assertions", Severity.Error),
  ("@typescript-eslint/consistent-type-definitions", Severity.Error),
  ("@typescript-eslint/consistent-type-exports", Severity.Error),
  ("@typescript-eslint/consistent-type-imports", Severity.Error),
  ("default-param-last", Severity.Off),
  ("@typescript-eslint/default-param-last", Severity.Error),
  ("dot-notation", Severity.Off),
  ("@typescript-eslint/dot-notation", Severity.Error),
  ("@typescript-eslint/explicit-function-return-type", Severity.Error),
  ("@typescript-eslint/explicit-member-accessibility", Severity.Error),
  ("@typescript-eslint/explicit-module-boundary-types", Severity.Error),
  ("init-declarations", Severity.Off),
  ("@typescript-eslint/init-declarations", Severity.Error),
  ("max-params", Severity.Off),
  ("@typescript-eslint/max-params", Severity.Error),
  ("@typescript-eslint/member-ordering", Severity.Error),
  ("@typescript-eslint/method-signature-style", Severity.Error),
  ("@typescript-eslint/naming_convention", Severity.Error),
  ("no-array-pub(crate) constructor", Severity.Off),
  ("@typescript-eslint/no-array-pub(crate) constructor", Severity.Error),
  ("@typescript-eslint/no-array-delete", Severity.Error),
  ("@typescript-eslint/no-base-to-string", Severity.Error),
  ("@typescript-eslint/no-confusing-non-null-assertion", Severity.Error),
  ("@typescript-eslint/no-confusing-void-expression", Severity.Error),
  ("no-dupe-class-members", Severity.Off),
  ("@typescript-eslint/no-dupe-class-members", Severity.Error),
  ("@typescript-eslint/no-duplicate-enum-values", Severity.Error),
  ("@typescript-eslint/no-duplicate-type-pub(crate) constituents", Severity.Error),
  ("@typescript-eslint/no-dynamic-delete", Severity.Error),
  ("no-empty-function", Severity.Off),
  ("@typescript-eslint/no-empty-function", Severity.Error),
  ("@typescript-eslint/no-empty-interface", Severity.Error),
  ("@typescript-eslint/no-explicit-any", Severity.Error),
  ("@typescript-eslint/no-extra-non-null-assertion", Severity.Error),
  ("@typescript-eslint/no-extraneous-class", Severity.Error),
  ("@typescript-eslint/no-floating-promises", Severity.Error),
  ("@typescript-eslint/no-for-in-array", Severity.Error),
  ("no-implied-eval", Severity.Off),
  ("@typescript-eslint/no-implied-eval", Severity.Error),
  ("@typescript-eslint/no-import-type-side-effects", Severity.Error),
  ("@typescript-eslint/no-inferrable-types", Severity.Error),
  ("no-invalid-this", Severity.Off),
  ("@typescript-eslint/no-invalid-this", Severity.Error),
  ("@typescript-eslint/no-invalid-void-type", Severity.Error),
  ("no-loop-func", Severity.Off),
  ("@typescript-eslint/no-loop-func", Severity.Error),
  ("no-loss-of-precision", Severity.Off),
  ("@typescript-eslint/no-loss-of-precision", Severity.Error),
  ("no-magic-numbers", Severity.Off),
  ("@typescript-eslint/no-magic-numbers", Severity.Error),
  ("@typescript-eslint/no-meaningless-void-operator", Severity.Error),
  ("@typescript-eslint/no-misused-new", Severity.Error),
  ("@typescript-eslint/no-misused-promises", Severity.Error),
  ("@typescript-eslint/no-mixed-enums", Severity.Error),
  ("@typescript-eslint/no-namespace", Severity.Error),
  ("@typescript-eslint/no-non-null-asserted-nullish-coalescing", Severity.Error),
  ("@typescript-eslint/no-non-null-asserted-optional-chain", Severity.Error),
  ("@typescript-eslint/no-non-null-assertion", Severity.Error),
  ("no-redeclare", Severity.Off),
  ("@typescript-eslint/no-redeclare", Severity.Error),
  ("@typescript-eslint/no-redundant-type-pub(crate) constituents", Severity.Error),
  ("@typescript-eslint/no-require-imports", Severity.Error),
  ("no-restricted-imports", Severity.Off),
  ("@typescript-eslint/no-restricted-imports", Severity.Error),
  ("no-shadow", Severity.Off),
  ("@typescript-eslint/no-shadow", Severity.Error),
  ("@typescript-eslint/no-this-alias", Severity.Error),
  ("@typescript-eslint/no-unnecessary-boolean-literal-compare", Severity.Error),
  ("@typescript-eslint/no-unnecessary-condition", Severity.Error),
  ("@typescript-eslint/no-unnecessary-qualifier", Severity.Error),
  ("@typescript-eslint/no-unnecessary-type-arguments", Severity.Error),
  ("@typescript-eslint/no-unnecessary-type-assertion", Severity.Error),
  ("@typescript-eslint/no-unnecessary-type-pub(crate) constraint", Severity.Error),
  ("@typescript-eslint/no-unsafe-argument", Severity.Error),
  ("@typescript-eslint/no-unsafe-assignment", Severity.Error),
  ("@typescript-eslint/no-unsafe-call", Severity.Error),
  ("@typescript-eslint/no-unsafe-declaration-merging", Severity.Error),
  ("@typescript-eslint/no-unsafe-enum-comparison", Severity.Error),
  ("@typescript-eslint/no-unsafe-member-access", Severity.Error),
  ("@typescript-eslint/no-unsafe-return", Severity.Error),
  ("@typescript-eslint/no-unsafe-unary-minus", Severity.Error),
  ("no-unused-expressions", Severity.Off),
  ("@typescript-eslint/no-unused-expressions", Severity.Error),
  ("no-unused-vars", Severity.Off),
  ("@typescript-eslint/no-unused-vars", Severity.Error),
  ("no-use-before-define", Severity.Off),
  ("@typescript-eslint/no-use-before-define", Severity.Error),
  ("no-useless-pub(crate) constructor", Severity.Off),
  ("@typescript-eslint/no-useless-pub(crate) constructor", Severity.Error),
  ("@typescript-eslint/no-useless-empty-export", Severity.Error),
  ("@typescript-eslint/no-useless-template-literals", Severity.Error),
  ("@typescript-eslint/no-var-requires", Severity.Error),
  ("@typescript-eslint/non-nullable-type-assertion-style", Severity.Error),
  ("no-throw-literal", Severity.Off),
  ("@typescript-eslint/only-throw-error", Severity.Error),
  ("@typescript-eslint/parameter-properties", Severity.Error),
  ("@typescript-eslint/prefer-as-pub(crate) const", Severity.Error),
  ("prefer-destructuring", Severity.Off),
  ("@typescript-eslint/prefer-destructuring", Severity.Error),
  ("@typescript-eslint/prefer-enum-initializers", Severity.Error),
  ("@typescript-eslint/prefer-find", Severity.Error),
  ("@typescript-eslint/prefer-for-of", Severity.Error),
  ("@typescript-eslint/prefer-function-type", Severity.Error),
  ("@typescript-eslint/prefer-includes", Severity.Error),
  ("@typescript-eslint/prefer-literal-enum-member", Severity.Error),
  ("@typescript-eslint/prefer-namespace-keyword", Severity.Error),
  ("@typescript-eslint/prefer-nullish-coalescing", Severity.Error),
  ("@typescript-eslint/prefer-optional-chain", Severity.Error),
  ("prefer-promise-reject-errors", Severity.Off),
  ("@typescript-eslint/prefer-promise-reject-errors", Severity.Error),
  ("@typescript-eslint/prefer-readonly", Severity.Error),
  ("@typescript-eslint/prefer-readonly-parameter-types", Severity.Error),
  ("@typescript-eslint/prefer-reduce-type-parameter", Severity.Error),
  ("@typescript-eslint/prefer-regexp-exec", Severity.Error),
  ("@typescript-eslint/prefer-return-this-type", Severity.Error),
  ("@typescript-eslint/prefer-string-starts-ends-with", Severity.Error),
  ("@typescript-eslint/prefer-ts-expect-error", Severity.Error),
  ("@typescript-eslint/promise-function-async", Severity.Error),
  ("@typescript-eslint/require-array-sort-compare", Severity.Error),
  ("require-await", Severity.Off),
  ("@typescript-eslint/require-await", Severity.Error),
  ("@typescript-eslint/restrict-plus-operands", Severity.Error),
  ("@typescript-eslint/restrict-template-expressions", Severity.Error),
  ("no-return-await", Severity.Off),
  ("@typescript-eslint/return-await", Severity.Error),
  ("@typescript-eslint/sort-type-pub(crate) constituents", Severity.Error),
  ("@typescript-eslint/strict-boolean-expressions", Severity.Error),
  ("@typescript-eslint/switch-exhaustiveness-check", Severity.Error),
  ("@typescript-eslint/triple-slash-reference", Severity.Error),
  ("@typescript-eslint/typedef", Severity.Error),
  ("@typescript-eslint/unbound-method", Severity.Error),
  ("@typescript-eslint/unified-signatures", Severity.Error),
  ("@typescript-eslint/use-unknown-in-catch-callback-variable", Severity.Error)
]

def eslint_unicorn.RECOMMENDED : List (String × Severity) := [
  ("no-negated-condition", Severity.Off),
  ("no-nested-ternary", Severity.Off),
  ("unicorn/better-regex", Severity.Error),
  ("unicorn/catch-error-name", Severity.Error),
  ("unicorn/consistent-destructuring", Severity.Off),
  ("unicorn/consistent-function-scoping", Severity.Error),
  ("unicorn/custom-error-definition", Severity.Off),
  ("unicorn/empty-brace-spaces", Severity.Error),
  ("unicorn/error-message", Severity.Error),
  ("unicorn/escape-case", Severity.Error),
  ("unicorn/expiring-todo-comments", Severity.Error),
  ("unicorn/explicit-length-check", Severity.Error),
  ("unicorn/filename-case", Severity.Error),
  ("unicorn/import-style", Severity.Error),
  ("unicorn/new-for-builtins", Severity.Error),
  ("unicorn/no-abusive-eslint-disable", Severity.Error),
  ("unicorn/no-anonymous-default-export", Severity.Error),
  ("unicorn/no-array-callback-reference", Severity.Error),
  ("unicorn/no-array-for-each", Severity.Error),
  ("unicorn/no-array-method-this-argument", Severity.Error),
  ("unicorn/no-array-push-push", Severity.Error),
  ("unicorn/no-array-reduce", Severity.Error),
  ("unicorn/no-await-expression-member", Severity.Error),
  ("unicorn/no-await-in-promise-methods", Severity.Error),
  ("unicorn/no-console-spaces", Severity.Error),
  ("unicorn/no-document-cookie", Severity.Error),
  ("unicorn/no-empty-file", Severity.Error),
  ("unicorn/no-for-loop", Severity.Error),
  ("unicorn/no-hex-escape", Severity.Error),
  ("unicorn/no-instanceof-array", Severity.Error),
  ("unicorn/no-invalid-remove-event-listener", Severity.Error),
  ("unicorn/no-keyword-prefix", Severity.Off),
  ("unicorn/no-lonely-if", Severity.Error),
  ("unicorn/no-negated-condition", Severity.Error),
  ("unicorn/no-nested-ternary", Severity.Error),
  ("unicorn/no-new-array", Severity.Error),
  ("unicorn/no-new-buffer", Severity.Error),
  ("unicorn/no-null", Severity.Error),
  ("unicorn/no-object-as-default-parameter", Severity.Error),
  ("unicorn/no-process-exit", Severity.Error),
  ("unicorn/no-single-promise-in-promise-methods", Severity.Error),
  ("unicorn/no-static-only-class", Severity.Error),
  ("unicorn/no-thenable", Severity.Error),
  ("unicorn/no-this-assignment", Severity.Error),
  ("unicorn/no-typeof-undefined", Severity.Error),
  ("unicorn/no-unnecessary-await", Severity.Error),
  ("unicorn/no-unnecessary-polyfills", Severity.Error),
  ("unicorn/no-unreadable-array-destructuring", Severity.Error),
  ("unicorn/no-unreadable-iife", Severity.Error),
  ("unicorn/no-unused-properties", Severity.Off),
  ("unicorn/no-useless-fallback-in-spread", Severity.Error),
  ("unicorn/no-useless-length-check", Severity.Error),
  ("unicorn/no-useless-promise-resolve-reject", Severity.Error),
  ("unicorn/no-useless-spread", Severity.Error),
  ("unicorn/no-useless-switch-case", Severity.Error),
  ("unicorn/no-useless-undefined", Severity.Error),
  ("unicorn/no-zero-fractions", Severity.Error),
  ("unicorn/number-literal-case", Severity.Error),
  ("unicorn/numeric-separators-style", Severity.Error),
  ("unicorn/prefer-add-event-listener", Severity.Error),
  ("unicorn/prefer-array-find", Severity.Error),
  ("unicorn/prefer-array-flat-map", Severity.Error),
  ("unicorn/prefer-array-flat", Severity.Error),
  ("unicorn/prefer-array-index-of", Severity.Error),
  ("unicorn/prefer-array-some", Severity.Error),
  ("unicorn/prefer-at", Severity.Error),
  ("unicorn/prefer-blob-reading-methods", Severity.Error),
  ("unicorn/prefer-code-point", Severity.Error),
  ("unicorn/prefer-date-now", Severity.Error),
  ("unicorn/prefer-default-parameters", Severity.Error),
  ("unicorn/prefer-dom-node-append", Severity.Error),
  ("unicorn/prefer-dom-node-dataset", Severity.Error),
  ("unicorn/prefer-dom-node-remove", Severity.Error),
  ("unicorn/prefer-dom-node-text-content", Severity.Error),
  ("unicorn/prefer-event-target", Severity.Error),
  ("unicorn/prefer-export-from", Severity.Error),
  ("unicorn/prefer-includes", Severity.Error),
  ("unicorn/prefer-json-parse-buffer", Severity.Off),
  ("unicorn/prefer-keyboard-event-key", Severity.Error),
  ("unicorn/prefer-logical-operator-over-ternary", Severity.Error),
  ("unicorn/prefer-math-trunc", Severity.Error),
  ("unicorn/prefer-modern-dom-apis", Severity.Error),
  ("unicorn/prefer-modern-math-apis", Severity.Error),
  ("unicorn/prefer-module", Severity.Error),
  ("unicorn/prefer-native-coercion-functions", Severity.Error),
  ("unicorn/prefer-negative-index", Severity.Error),
  ("unicorn/prefer-node-protocol", Severity.Error),
  ("unicorn/prefer-number-properties", Severity.Error),
  ("unicorn/prefer-object-from-entries", Severity.Error),
  ("unicorn/prefer-optional-catch-binding", Severity.Error),
  ("unicorn/prefer-prototype-methods", Severity.Error),
  ("unicorn/prefer-query-selector", Severity.Error),
  ("unicorn/prefer-reflect-apply", Severity.Error),
  ("unicorn/prefer-regexp-test", Severity.Error),
  ("unicorn/prefer-set-has", Severity.Error),
  ("unicorn/prefer-set-size", Severity.Error),
  ("unicorn/prefer-spread", Severity.Error),
  ("unicorn/prefer-string-replace-all", Severity.Error),
  ("unicorn/prefer-string-slice", Severity.Error),
  ("unicorn/prefer-string-starts-ends-with", Severity.Error),
  ("unicorn/prefer-string-trim-start-end", Severity.Error),
  ("unicorn/prefer-switch", Severity.Error),
  ("unicorn/prefer-ternary", Severity.Error),
  ("unicorn/prefer-top-level-await", Severity.Error),
  ("unicorn/prefer-type-error", Severity.Error),
  ("unicorn/prevent-abbreviations", Severity.Error),
  ("unicorn/relative-url-style", Severity.Error),
  ("unicorn/require-array-join-separator", Severity.Error),
  ("unicorn/require-number-to-fixed-digits-argument", Severity.Error),
  ("unicorn/require-post-message-target-origin", Severity.Off),
  ("unicorn/string-content", Severity.Off),
  ("unicorn/switch-case-braces", Severity.Error),
  ("unicorn/template-indent", Severity.Error),
  ("unicorn/text-encoding-identifier-case", Severity.Error),
  ("unicorn/throw-new-error", Severity.Error)
]

def eslint_unicorn.NON_RECOMMENDED : List (String × Severity) := [
  ("unicorn/consistent-destructuring", Severity.Error),
  ("unicorn/custom-error-definition", Severity.Error),
  ("unicorn/no-keyword-prefix", Severity.Error),
  ("unicorn/no-unused-properties", Severity.Error),
  ("unicorn/prefer-json-parse-buffer", Severity.Error),
  ("unicorn/require-post-message-target-origin", Severity.Error),
  ("unicorn/string-content", Severity.Error)
]

/-- Modelled from the spec: the jest plugin preset table (the module
`eslint_jest` referenced by `from_preset` is not among the sources).
Contents unknown and irrelevant to every claim; an empty table stands
in. -/
def eslint_jest.RECOMMENDED : List (String × Severity) := []

/-- Modelled from the spec: the jest plugin preset table (module
`eslint_jest` is not among the sources); empty stand-in. -/
def eslint_jest.STYLE : List (String × Severity) := []

/-- Modelled from the spec: the jest plugin preset table (module
`eslint_jest` is not among the sources); empty stand-in. -/
def eslint_jest.NON_RECOMMENDED_ERROR : List (String × Severity) := []

/-- The rule set of one named preset: the `match` of
`ConfigData::from_preset`, `eslint.rs` lines 136-220, whose `_` branch
returns `None`.  `chain`ed tables become list appends. -/
def presetRules (name : String) : Option Rules :=
  if name = "eslint:recommended" then
    some (Rules.fromList ESLINT_RECOMMENDED)
  else if name = "eslint:all" then
    some (Rules.fromList ESLINT_ALL)
  else if name = "plugin:barrel/recommended" then
    some (Rules.fromList eslint_barrel.RECOMMENDED)
  else if name = "plugin:import/errors" then
    some (Rules.fromList eslint_import.ERRORS)
  else if name = "plugin:import/recommended" then
    some (Rules.fromList (eslint_import.ERRORS ++ eslint_import.WARNINGS))
  else if name = "plugin:import/warnings" then
    some (Rules.fromList eslint_import.WARNINGS)
  else if name = "plugin:jest/recommended" then
    some (Rules.fromList eslint_jest.RECOMMENDED)
  else if name = "plugin:jest/style" then
    some (Rules.fromList eslint_jest.STYLE)
  else if name = "plugin:jest/all" then
    some (Rules.fromList
      (eslint_jest.RECOMMENDED ++ eslint_jest.NON_RECOMMENDED_ERROR))
  else if name = "plugin:jsx-a11y/recommended" then
    some (Rules.fromList
      (eslint_jsxa11y.STRICT ++ eslint_jsxa11y.DISABLED_IN_RECOMMENDED))
  else if name = "plugin:jsx-a11y/strict" then
    some (Rules.fromList eslint_jsxa11y.STRICT)
  else if name = "plugin:react/all" then
    some (Rules.fromList
      (eslint_react.RECOMMENDED ++ eslint_react.NON_RECOMMENDED))
  else if name = "plugin:react/jsx-runtime" then
    some (Rules.fromList eslint_react.JSX_RUNTIME)
  else if name = "plugin:react-hooks/recommended" then
    some (Rules.fromList eslint_react_hooks.RECOMMENDED)
  else if name = "plugin:react/recommended" then
    some (Rules.fromList eslint_react.RECOMMENDED)
  else if name = "plugin:@typescript-eslint/base" then
    some Rules.empty
  else if name = "plugin:@typescript-eslint/recommended" then
    some (Rules.fromList eslint_typescript.RECOMMENDED)
  else if name = "plugin:@typescript-eslint/recommended-type-checked-only" then
    some (Rules.fromList eslint_typescript.RECOMMENDED_TYPE_CHECKED_ONLY)
  else if name = "plugin:@typescript-eslint/recommended-type-checked" then
    some (Rules.fromList
      (eslint_typescript.RECOMMENDED
        ++ eslint_typescript.RECOMMENDED_TYPE_CHECKED_ONLY))
  else if name = "plugin:@typescript-eslint/strict" then
    some (Rules.fromList eslint_typescript.STRICT)
  else if name = "plugin:@typescript-eslint/strict-type-checked-only" then
    some (Rules.fromList eslint_typescript.STRICT_YYPE_CHECKED_ONLY)
  else if name = "plugin:@typescript-eslint/strict-type-checked" then
    some (Rules.fromList
      (eslint_typescript.STRICT ++ eslint_typescript.STRICT_YYPE_CHECKED_ONLY))
  else if name = "plugin:@typescript-eslint/stylistic" then
    some (Rules.fromList eslint_typescript.STYLISTIC)
  else if name = "plugin:@typescript-eslint/stylistic-type-checked-only" then
    some (Rules.fromList eslint_typescript.STYLISTIC_TYPE_CHECKED_ONLY)
  else if name = "plugin:@typescript-eslint/stylistic-type-checked" then
    some (Rules.fromList
      (eslint_typescript.STYLISTIC
        ++ eslint_typescript.STYLISTIC_TYPE_CHECKED_ONLY))
  else if name = "plugin:@typescript-eslint/disable-type-checked" then
    some (Rules.fromList eslint_typescript.DISABLE_TYPE_CHECKED)
  else if name = "plugin:@typescript-eslint/all" then
    some (Rules.fromList eslint_typescript.ALL)
  else if name = "plugin:unicorn/recommeded" then
    some (Rules.fromList eslint_unicorn.RECOMMENDED)
  else if name = "plugin:unicorn/all" then
    some (Rules.fromList
      (eslint_unicorn.RECOMMENDED ++ eslint_unicorn.NON_RECOMMENDED))
  else
    none

/-- `ConfigData::from_preset`, `eslint.rs` lines 136-225: a known
preset name yields a configuration holding only that preset's rules,
every other field defaulted; an unknown name yields `None`. -/
def ConfigData.from_preset (name : String) : Option ConfigData :=
  (presetRules name).map (fun rules => { rules := rules : ConfigData })

/-- `ConfigData::resolve_extends`, `eslint.rs` lines 227-238: expand
each known preset of `extends` (unknown names are skipped), clear
`extends`, then fold the expansions into the configuration with
`merge_with`. -/
def ConfigData.resolve_extends (self : ConfigData) : ConfigData :=
  let extensions :=
    List.filterMap ConfigData.from_preset self.«extends».toList
  let cleared := { self with «extends» := Shorthand.mk [] }
  List.foldl ConfigData.mergeWith cleared extensions

/-- Migration policy switches, `eslint_to_biome.rs` lines 7-13. -/
structure MigrationOptions where
  include_inspired : Bool := false
  include_nursery : Bool := false
deriving DecidableEq

/-- The migration report, `eslint_to_biome.rs` lines 15-25. -/
structure MigrationResults where
  migrated_rules : List String := []
  unsupported_rules : List String := []
  inspired_rules : List String := []
  nursery_rules : List String := []
deriving DecidableEq

/-- Modelled from the spec: one entry of the precomputed name-to-target
table behind `migrate_eslint_any_rule` (section 4.6 step 1: "a
precomputed name-to-target-rule table (derived from the target
linter's own rule registry and metadata tags)"): the equivalent target
rule's name and its `inspired`/`nursery` tags. -/
structure MigEntry where
  targetName : String
  inspired : Bool := false
  nursery : Bool := false
deriving DecidableEq

/-- Modelled from the spec: the migration table itself (the generated
module `eslint_any_rule_to_biome` is not among the sources), as a
parameter of the migration functions. -/
def MigrationTable : Type := String → Option MigEntry

/-- Modelled from the spec: the target rule set (the target linter's
configuration types are an external typed sink, sections 1 and 6);
a rule entry is its target name and configured severity.  Rule options
are out of the modelled sink. -/
abbrev BiomeRules : Type := List (String × Severity)

/-- Setting the target rule's severity in the sink: replace the entry
of that rule if present, append otherwise. -/
def setBiomeRule (rs : BiomeRules) (name : String) (sev : Severity) :
    BiomeRules :=
  if (rs.find? (fun p => p.1 == name)).isSome then
    rs.map (fun p => if p.1 == name then (name, sev) else p)
  else rs ++ [(name, sev)]

/-- Modelled from the spec: `migrate_eslint_any_rule` (generated, not
among the sources), from section 4.6 steps 1-3: look the name up (absent
names are bucketed unsupported), apply the `inspired`/`nursery` policy
switches, otherwise set the target rule's severity from the source
severity and record the migration.  Returns the updated sink, the
updated report and whether the rule was migrated. -/
def migrateEslintAnyRule (table : MigrationTable) (rules : BiomeRules)
    (name : String) (severity : Severity) (opts : MigrationOptions)
    (results : MigrationResults) :
    BiomeRules × MigrationResults × Bool :=
  match table name with
  | none =>
    (rules,
      { results with
        unsupported_rules := results.unsupported_rules ++ [name] },
      false)
  | some entry =>
    if entry.inspired && !opts.include_inspired then
      (rules,
        { results with inspired_rules := results.inspired_rules ++ [name] },
        false)
    else if entry.nursery && !opts.include_nursery then
      (rules,
        { results with nursery_rules := results.nursery_rules ++ [name] },
        false)
    else
      (setBiomeRule rules entry.targetName severity,
        { results with migrated_rules := results.migrated_rules ++ [name] },
        true)

/-- `migrate_eslint_rule`, `eslint_to_biome.rs` lines 104-188, at the
severity level of the modelled sink: every branch first calls
`migrate_eslint_any_rule` with the rule's name and configured severity.
The five option-carrying branches then attach translated options to the
equivalent target rule at that same severity; option payloads are not
part of the modelled sink, so those attachments add nothing here. -/
def migrateEslintRule (table : MigrationTable) (opts : MigrationOptions)
    (st : BiomeRules × MigrationResults) (rule : Rule) :
    BiomeRules × MigrationResults :=
  match rule with
  | .Any name severity =>
    let r := migrateEslintAnyRule table st.1 name severity opts st.2
    (r.1, r.2.1)
  | .NoRestrictedGlobals conf =>
    let r := migrateEslintAnyRule table st.1 (ruleName rule)
      (ruleConfSeverity conf) opts st.2
    (r.1, r.2.1)
  | .Jsxa11yArioaRoles conf =>
    let r := migrateEslintAnyRule table st.1 (ruleName rule)
      (ruleConfSeverity conf) opts st.2
    (r.1, r.2.1)
  | .TypeScriptArrayType conf =>
    let r := migrateEslintAnyRule table st.1 (ruleName rule)
      (ruleConfSeverity conf) opts st.2
    (r.1, r.2.1)
  | .TypeScriptNamingConvention conf =>
    let r := migrateEslintAnyRule table st.1 (ruleName rule)
      (ruleConfSeverity conf) opts st.2
    (r.1, r.2.1)
  | .UnicornFilenameCase conf =>
    let r := migrateEslintAnyRule table st.1 (ruleName rule)
      (ruleConfSeverity conf) opts st.2
    (r.1, r.2.1)

/-- `Rules::into_biome_rules`, `eslint_to_biome.rs` lines 90-102:
migrate each configured rule in turn, threading the report. -/
def intoBiomeRules (rs : Rules) (opts : MigrationOptions)
    (table : MigrationTable) (results : MigrationResults) :
    BiomeRules × MigrationResults :=
  List.foldl (migrateEslintRule table opts) ([], results) rs

/-- Modelled from the spec: collecting an iterator of strings into a
`StringSet` (an insertion-ordered set): duplicates keep their first
occurrence.  Only membership in the result is relied upon. -/
def stringSet (l : List String) : List String :=
  List.foldl (fun acc s => if s ∈ acc then acc else acc ++ [s]) [] l

/-- Modelled from the spec: the target `javascript` section
(an external typed sink); only the populated `globals` field is
modelled. -/
structure PartialJavascriptConfiguration where
  globals : Option (List String) := none
deriving DecidableEq

/-- Modelled from the spec: the target linter section of one override
entry (external typed sink). -/
structure OverrideLinterConfiguration where
  rules : Option BiomeRules := none
deriving DecidableEq

/-- Modelled from the spec: one target override entry (external typed
sink); the fields `into_biome_config` populates. -/
structure OverridePattern where
  javascript : Option PartialJavascriptConfiguration := none
  ignore : Option (List String) := none
  linter : Option OverrideLinterConfiguration := none
deriving DecidableEq

/-- Modelled from the spec: the target linter section (external typed
sink). -/
structure PartialLinterConfiguration where
  ignore : Option (List String) := none
  rules : Option BiomeRules := none
deriving DecidableEq

/-- Modelled from the spec: the target configuration tree (external
typed sink, section 6): the three populated sections. -/
structure PartialConfiguration where
  javascript : Option PartialJavascriptConfiguration := none
  linter : Option PartialLinterConfiguration := none
  overrides : Option (List OverridePattern) := none
deriving DecidableEq

/-- The override loop body of `ConfigData::into_biome_config`,
`eslint_to_biome.rs` lines 58-81: a non-empty `globals` map populates
the entry's javascript globals with ALL its keys (`into_keys`, no
`is_enabled` filter); a non-empty `excluded_files` sets the entry's
`ignore`; a non-empty `files` then sets the SAME `ignore` field,
overwriting it; non-empty rules are migrated into the entry's linter
section. -/
def migrateOverride (table : MigrationTable) (opts : MigrationOptions)
    (o : OverrideConfigData) (results : MigrationResults) :
    OverridePattern × MigrationResults :=
  let pat : OverridePattern := {}
  let pat :=
    if o.globals.isEmpty then pat
    else
      { pat with
        javascript :=
          some { globals := some (stringSet (o.globals.map Prod.fst)) } }
  let pat :=
    if Shorthand.isEmpty o.excluded_files then pat
    else { pat with ignore := some (stringSet o.excluded_files.toList) }
  let pat :=
    if Shorthand.isEmpty o.files then pat
    else { pat with ignore := some (stringSet o.files.toList) }
  if Rules.isEmpty o.rules then (pat, results)
  else
    let r := intoBiomeRules o.rules opts table results
    ({ pat with linter := some { rules := some r.1 } }, r.2)

/-- `ConfigData::into_biome_config`, `eslint_to_biome.rs` lines 27-88:
non-empty globals populate the javascript section with the ENABLED
globals only; non-empty ignore patterns and rules populate the linter
section; each override block becomes one target override entry; the
linter section is always set at the end. -/
def intoBiomeConfig (table : MigrationTable) (opts : MigrationOptions)
    (c : ConfigData) : PartialConfiguration × MigrationResults :=
  let results : MigrationResults := {}
  let config : PartialConfiguration := {}
  let enabledGlobals := c.globals.filterMap (fun p =>
    if GlobalConf.is_enabled p.2 then some p.1 else none)
  let config :=
    if c.globals.isEmpty then config
    else
      { config with
        javascript := some { globals := some (stringSet enabledGlobals) } }
  let linter : PartialLinterConfiguration := {}
  let linter :=
    if Shorthand.isEmpty c.ignore_patterns then linter
    else { linter with ignore := some (stringSet c.ignore_patterns.toList) }
  let lr :=
    if Rules.isEmpty c.rules then (linter, results)
    else
      let r := intoBiomeRules c.rules opts table results
      ({ linter with rules := some r.1 }, r.2)
  let cr :=
    if c.overrides.isEmpty then (lr.1, (config, lr.2))
    else
      let folded := c.overrides.foldl (fun acc o =>
        let pr := migrateOverride table opts o acc.2
        (acc.1 ++ [pr.1], pr.2)) (([] : List OverridePattern), lr.2)
      (lr.1, ({ config with overrides := some folded.1 }, folded.2))
  ({ cr.2.1 with linter := some cr.1 }, cr.2.2)

/-- Name-uniqueness of a rule set: no two elements share a name. -/
def rulesNodupNames (rs : Rules) : Prop :=
  List.Nodup (rs.map ruleName)

/-- The globals list of a target override entry's javascript section
(empty when the section is absent). -/
def patternGlobalsOf (pat : OverridePattern) : List String :=
  match pat.javascript with
  | some js => js.globals.getD []
  | none => []

/-- The globals list of the target configuration's javascript section
(empty when the section is absent). -/
def jsGlobalsOf (cfg : PartialConfiguration) : List String :=
  match cfg.javascript with
  | some js => js.globals.getD []
  | none => []

/-- The override entries of the target configuration (empty when the
section is absent). -/
def overridesListOf (cfg : PartialConfiguration) : List OverridePattern :=
  cfg.overrides.getD []

/-- The canonical target entry of one override block (the report
accumulator does not influence the entry, proved below). -/
def overridePatternOf (table : MigrationTable) (opts : MigrationOptions)
    (o : OverrideConfigData) : OverridePattern :=
  (migrateOverride table opts o {}).1

/-- The everywhere-undefined migration table (no claim depends on the
real generated table's contents unless stated as a hypothesis). -/
def tableEmpty : MigrationTable := fun _ => none

/-- A migration table knowing only `eqeqeq`, mapping it to its biome
equivalent, neither inspired nor nursery. -/
def tableEqeqeq : MigrationTable := fun n =>
  if n = "eqeqeq" then some { targetName := "suspicious/noDoubleEquals" }
  else none

/-- Default migration options (both switches off). -/
def optsDefault : MigrationOptions := {}

/-- The configuration of the override scenario: one override block with
`files = ["bin/*.js"]` and `rules = {"eqeqeq": "off"}`, nothing else. -/
def c2Config : ConfigData :=
  { overrides := [{ files := Shorthand.mk ["bin/*.js"],
                    rules := [Rule.Any "eqeqeq" Severity.Off] }] }

/-- The configuration of the preset scenario:
`extends = ["eslint:recommended", "eslint:all"]` with the explicit rule
`no-var: off`. -/
def c5Config : ConfigData :=
  { «extends» := Shorthand.mk ["eslint:recommended", "eslint:all"],
    rules := [Rule.Any "no-var" Severity.Off] }

/-- The configuration of the globals scenario: `var1` writable, `var2`
readonly, `var3` off. -/
def c8Config : ConfigData :=
  { globals := [("var1", GlobalConf.Qualifier GlobalConfQualifier.Writable),
                ("var2", GlobalConf.Qualifier GlobalConfQualifier.Readonly),
                ("var3", GlobalConf.Qualifier GlobalConfQualifier.Off)] }

/-- The configuration of the override-globals scenario: one override
block declaring the disabled global `var3: off`. -/
def c9Config : ConfigData :=
  { overrides := [{ globals :=
      [("var3", GlobalConf.Qualifier GlobalConfQualifier.Off)] }] }

theorem rules_find_cons (r : Rule) (o : Rules) (n : String) :
    Rules.find (r :: o) n =
      if ruleName r == n then some r else Rules.find o n := by
  cases heq : (ruleName r == n) with
  | true =>
    simp only [Rules.find, heq, if_true]
    exact List.find?_cons_of_pos o heq
  | false =>
    simp only [Rules.find, heq, Bool.false_eq_true, if_false]
    exact List.find?_cons_of_neg o (by simp [heq])

theorem find?_append_of_none {A : Type} {p : A → Bool} {l1 l2 : List A}
    (h : l1.find? p = none) : (l1 ++ l2).find? p = l2.find? p := by
  induction l1 with
  | nil => simp
  | cons a l1 ih =>
    cases hp : p a with
    | true =>
      rw [List.find?_cons_of_pos l1 hp] at h
      simp at h
    | false =>
      rw [List.find?_cons_of_neg l1 (by simp [hp])] at h
      rw [List.cons_append, List.find?_cons_of_neg _ (by simp [hp])]
      exact ih h

theorem find?_append_of_some {A : Type} {p : A → Bool} {l1 l2 : List A}
    {x : A} (h : l1.find? p = some x) : (l1 ++ l2).find? p = some x := by
  induction l1 with
  | nil => simp at h
  | cons a l1 ih =>
    cases hp : p a with
    | true =>
      rw [List.find?_cons_of_pos l1 hp] at h
      rw [List.cons_append, List.find?_cons_of_pos _ hp]
      exact h
    | false =>
      rw [List.find?_cons_of_neg l1 (by simp [hp])] at h
      rw [List.cons_append, List.find?_cons_of_neg _ (by simp [hp])]
      exact ih h

theorem rules_find_insert_of_isSome {rs : Rules} {n : String} (r : Rule)
    (h : (Rules.find rs n).isSome) :
    Rules.find (Rules.insert rs r) n = Rules.find rs n := by
  unfold Rules.insert
  split
  · rfl
  · obtain ⟨x, hx⟩ := Option.isSome_iff_exists.mp h
    simp only [Rules.find] at hx ⊢
    rw [find?_append_of_some hx, hx]

theorem rules_find_insert_of_none {rs : Rules} {n : String} (r : Rule)
    (h : Rules.find rs n = none) :
    Rules.find (Rules.insert rs r) n =
      if ruleName r == n then some r else none := by
  unfold Rules.insert
  split
  · next hcond =>
    cases heq : (ruleName r == n) with
    | true =>
      exfalso
      have he : ruleName r = n := by simpa using heq
      rw [he, h] at hcond
      simp at hcond
    | false => simpa [heq] using h
  · simp only [Rules.find] at h ⊢
    rw [find?_append_of_none h]
    cases heq : (ruleName r == n) with
    | true =>
      simp only [heq, if_true]
      exact List.find?_cons_of_pos [] heq
    | false =>
      simp only [heq, Bool.false_eq_true, if_false]
      rw [List.find?_cons_of_neg [] (by simp [heq])]
      rfl

theorem rules_find_merge_of_isSome {s : Rules} {n : String} (o : Rules)
    (h : (Rules.find s n).isSome) :
    Rules.find (Rules.mergeWith s o) n = Rules.find s n := by
  induction o generalizing s with
  | nil => rfl
  | cons r o ih =>
    show Rules.find (Rules.mergeWith (Rules.insert s r) o) n = _
    have h2 : (Rules.find (Rules.insert s r) n).isSome := by
      rw [rules_find_insert_of_isSome r h]; exact h
    rw [ih h2, rules_find_insert_of_isSome r h]

theorem rules_find_merge_of_none {s : Rules} {n : String} (o : Rules)
    (h : Rules.find s n = none) :
    Rules.find (Rules.mergeWith s o) n = Rules.find o n := by
  induction o generalizing s with
  | nil =>
    show Rules.find s n = Rules.find [] n
    rw [h]; rfl
  | cons r o ih =>
    show Rules.find (Rules.mergeWith (Rules.insert s r) o) n
      = Rules.find (r :: o) n
    have hins := rules_find_insert_of_none r h
    rw [rules_find_cons]
    cases heq : (ruleName r == n) with
    | true =>
      rw [heq] at hins
      simp only [if_true] at hins
      have h2 : (Rules.find (Rules.insert s r) n).isSome := by
        rw [hins]; rfl
      rw [rules_find_merge_of_isSome o h2, hins]
      simp
    | false =>
      rw [heq] at hins
      simp only [Bool.false_eq_true, if_false] at hins
      rw [ih hins]
      simp

theorem rules_nodup_insert {rs : Rules} (r : Rule)
    (h : rulesNodupNames rs) : rulesNodupNames (Rules.insert rs r) := by
  unfold Rules.insert
  split
  · exact h
  · next hcond =>
    have hnone : Rules.find rs (ruleName r) = none := by
      cases hfind : Rules.find rs (ruleName r) with
      | none => rfl
      | some x => rw [hfind] at hcond; simp at hcond
    have hnotin : ruleName r ∉ rs.map ruleName := by
      intro hmem
      obtain ⟨x, hx, hxe⟩ := List.mem_map.mp hmem
      have := (List.find?_eq_none.mp hnone) x hx
      simp [hxe] at this
    unfold rulesNodupNames
    rw [List.map_append]
    exact List.Nodup.append h (List.nodup_singleton _)
      (by
        intro a ha hb
        simp only [List.map_cons, List.map_nil, List.mem_singleton] at hb
        rw [hb] at ha
        exact hnotin ha)

theorem rules_nodup_merge {s : Rules} (o : Rules)
    (h : rulesNodupNames s) : rulesNodupNames (Rules.mergeWith s o) := by
  induction o generalizing s with
  | nil => exact h
  | cons r o ih =>
    show rulesNodupNames (Rules.mergeWith (Rules.insert s r) o)
    exact ih (rules_nodup_insert r h)

theorem rules_nodup_foldl_insert {l : List Rule} {acc : Rules}
    (h : rulesNodupNames acc) :
    rulesNodupNames (List.foldl Rules.insert acc l) :=
  rules_nodup_merge l h

theorem rules_nodup_empty : rulesNodupNames Rules.empty :=
  List.nodup_nil

theorem rules_nodup_fromList (l : List (String × Severity)) :
    rulesNodupNames (Rules.fromList l) := by
  unfold Rules.fromList
  have : ∀ (l : List (String × Severity)) (acc : Rules),
      rulesNodupNames acc →
      rulesNodupNames
        (List.foldl (fun acc p => Rules.insert acc (Rule.new p.1 p.2)) acc l) := by
    intro l
    induction l with
    | nil => intro acc h; exact h
    | cons p l ih =>
      intro acc h
      exact ih _ (rules_nodup_insert _ h)
  exact this l Rules.empty rules_nodup_empty

theorem rules_merge_self_eq {s : Rules} {o : Rules}
    (h : ∀ r ∈ o, (Rules.find s (ruleName r)).isSome) :
    Rules.mergeWith s o = s := by
  induction o with
  | nil => rfl
  | cons r o ih =>
    show Rules.mergeWith (Rules.insert s r) o = s
    have hins : Rules.insert s r = s := by
      unfold Rules.insert
      rw [if_pos (h r (List.mem_cons_self r o))]
    rw [hins]
    exact ih (fun x hx => h x (List.mem_cons_of_mem r hx))

theorem rules_visitMap_as_foldl (entries : List (Value × Value)) :
    ∀ acc : Rules,
      entries.foldl (fun acc e =>
        match decodeRuleEntry e with
        | some r => Rules.insert acc r
        | none => acc) acc
      = List.foldl Rules.insert acc (entries.filterMap decodeRuleEntry) := by
  induction entries with
  | nil => intro acc; rfl
  | cons e entries ih =>
    intro acc
    cases hd : decodeRuleEntry e with
    | some r => simp [List.foldl_cons, List.filterMap_cons, hd, ih]
    | none => simp [List.foldl_cons, List.filterMap_cons, hd, ih]

theorem rules_visitMap_nodup (entries : List (Value × Value)) :
    rulesNodupNames (Rules.visitMap entries) := by
  unfold Rules.visitMap
  rw [rules_visitMap_as_foldl]
  exact rules_nodup_foldl_insert rules_nodup_empty

theorem rules_visitMap_find (entries : List (Value × Value)) (n : String) :
    Rules.find (Rules.visitMap entries) n
      = List.find? (fun r => ruleName r == n)
          (entries.filterMap decodeRuleEntry) := by
  unfold Rules.visitMap
  rw [rules_visitMap_as_foldl]
  have : Rules.find Rules.empty n = none := rfl
  exact rules_find_merge_of_none _ this

theorem from_preset_shape {name : String} {d : ConfigData}
    (h : ConfigData.from_preset name = some d) :
    d.env = [] ∧ d.globals = [] ∧ d.ignore_patterns = Shorthand.mk []
      ∧ d.overrides = [] ∧ d.«extends» = Shorthand.mk [] := by
  unfold ConfigData.from_preset at h
  cases hp : presetRules name with
  | none => rw [hp] at h; simp at h
  | some rs =>
    rw [hp] at h
    have h2 : ({ rules := rs } : ConfigData) = d := by
      simpa [Option.map] using h
    subst h2
    exact ⟨rfl, rfl, rfl, rfl, rfl⟩

theorem shorthand_merge_empty {T : Type} (s : Shorthand T) :
    Shorthand.mergeWith s (Shorthand.mk []) = s := by
  unfold Shorthand.mergeWith
  simp

theorem merge_preset_frame {c d : ConfigData}
    (hd : d.env = [] ∧ d.globals = [] ∧ d.ignore_patterns = Shorthand.mk []
      ∧ d.overrides = [] ∧ d.«extends» = Shorthand.mk []) :
    (ConfigData.mergeWith c d).env = c.env
      ∧ (ConfigData.mergeWith c d).globals = c.globals
      ∧ (ConfigData.mergeWith c d).ignore_patterns = c.ignore_patterns
      ∧ (ConfigData.mergeWith c d).overrides = c.overrides
      ∧ (ConfigData.mergeWith c d).«extends» = c.«extends» := by
  obtain ⟨h1, h2, h3, h4, h5⟩ := hd
  unfold ConfigData.mergeWith
  refine ⟨?_, ?_, ?_, ?_, ?_⟩
  · rw [h1]; rfl
  · rw [h2]; rfl
  · rw [h3]; exact shorthand_merge_empty _
  · rw [h4]; simp
  · rw [h5]; exact shorthand_merge_empty _

theorem foldl_merge_presets_frame (exts : List ConfigData) :
    ∀ acc : ConfigData,
      (∀ d ∈ exts,
        d.env = [] ∧ d.globals = [] ∧ d.ignore_patterns = Shorthand.mk []
          ∧ d.overrides = [] ∧ d.«extends» = Shorthand.mk []) →
      (List.foldl ConfigData.mergeWith acc exts).env = acc.env
        ∧ (List.foldl ConfigData.mergeWith acc exts).globals = acc.globals
        ∧ (List.foldl ConfigData.mergeWith acc exts).ignore_patterns
            = acc.ignore_patterns
        ∧ (List.foldl ConfigData.mergeWith acc exts).overrides = acc.overrides
        ∧ (List.foldl ConfigData.mergeWith acc exts).«extends» = acc.«extends» := by
  induction exts with
  | nil => intro acc _; exact ⟨rfl, rfl, rfl, rfl, rfl⟩
  | cons d exts ih =>
    intro acc h
    have hd := h d (List.mem_cons_self d exts)
    have hstep := merge_preset_frame (c := acc) hd
    have hrest := ih (ConfigData.mergeWith acc d)
      (fun x hx => h x (List.mem_cons_of_mem d hx))
    simp only [List.foldl_cons]
    exact ⟨hrest.1.trans hstep.1,
      hrest.2.1.trans hstep.2.1,
      hrest.2.2.1.trans hstep.2.2.1,
      hrest.2.2.2.1.trans hstep.2.2.2.1,
      hrest.2.2.2.2.trans hstep.2.2.2.2⟩

theorem foldl_merge_keeps_rule (exts : List ConfigData) :
    ∀ (acc : ConfigData) (n : String) (r : Rule),
      Rules.find acc.rules n = some r →
      Rules.find (List.foldl ConfigData.mergeWith acc exts).rules n = some r := by
  induction exts with
  | nil => intro acc n r h; exact h
  | cons d exts ih =>
    intro acc n r h
    simp only [List.foldl_cons]
    apply ih
    show Rules.find (Rules.mergeWith acc.rules d.rules) n = some r
    rw [rules_find_merge_of_isSome d.rules (by rw [h]; rfl)]
    exact h

theorem mem_stringSet {a : String} {l : List String} :
    a ∈ stringSet l ↔ a ∈ l := by
  have key : ∀ (l : List String) (acc : List String),
      a ∈ List.foldl
        (fun acc s => if s ∈ acc then acc else acc ++ [s]) acc l
      ↔ a ∈ acc ∨ a ∈ l := by
    intro l
    induction l with
    | nil => intro acc; simp
    | cons s l ih =>
      intro acc
      simp only [List.foldl_cons]
      by_cases hs : s ∈ acc
      · rw [if_pos hs, ih]
        constructor
        · rintro (h | h)
          · exact Or.inl h
          · exact Or.inr (List.mem_cons_of_mem s h)
        · rintro (h | h)
          · exact Or.inl h
          · rcases List.mem_cons.mp h with rfl | h
            · exact Or.inl hs
            · exact Or.inr h
      · rw [if_neg hs, ih]
        simp only [List.mem_append, List.mem_singleton, List.mem_cons]
        tauto
  unfold stringSet
  rw [key l []]
  simp

theorem migrate_any_rule_fst (table : MigrationTable) (rules : BiomeRules)
    (name : String) (severity : Severity) (opts : MigrationOptions)
    (res res' : MigrationResults) :
    (migrateEslintAnyRule table rules name severity opts res).1
      = (migrateEslintAnyRule table rules name severity opts res').1 := by
  unfold migrateEslintAnyRule
  cases table name with
  | none => rfl
  | some entry =>
    by_cases h1 : (entry.inspired && !opts.include_inspired) = true
    · simp [h1]
    · by_cases h2 : (entry.nursery && !opts.include_nursery) = true
      · simp [h1, h2]
      · simp [h1, h2]

theorem migrate_rule_fst (table : MigrationTable) (opts : MigrationOptions)
    (br : BiomeRules) (res res' : MigrationResults) (r : Rule) :
    (migrateEslintRule table opts (br, res) r).1
      = (migrateEslintRule table opts (br, res') r).1 := by
  cases r with
  | Any name severity =>
    simpa [migrateEslintRule] using
      migrate_any_rule_fst table br name severity opts res res'
  | NoRestrictedGlobals conf =>
    simpa [migrateEslintRule] using
      migrate_any_rule_fst table br _ (ruleConfSeverity conf) opts res res'
  | Jsxa11yArioaRoles conf =>
    simpa [migrateEslintRule] using
      migrate_any_rule_fst table br _ (ruleConfSeverity conf) opts res res'
  | TypeScriptArrayType conf =>
    simpa [migrateEslintRule] using
      migrate_any_rule_fst table br _ (ruleConfSeverity conf) opts res res'
  | TypeScriptNamingConvention conf =>
    simpa [migrateEslintRule] using
      migrate_any_rule_fst table br _ (ruleConfSeverity conf) opts res res'
  | UnicornFilenameCase conf =>
    simpa [migrateEslintRule] using
      migrate_any_rule_fst table br _ (ruleConfSeverity conf) opts res res'

theorem foldl_migrate_fst (table : MigrationTable) (opts : MigrationOptions) :
    ∀ (rs : List Rule) (br : BiomeRules) (res res' : MigrationResults),
      (List.foldl (migrateEslintRule table opts) (br, res) rs).1
        = (List.foldl (migrateEslintRule table opts) (br, res') rs).1 := by
  intro rs
  induction rs with
  | nil => intro br res res'; rfl
  | cons r rs ih =>
    intro br res res'
    simp only [List.foldl_cons]
    have h1 := migrate_rule_fst table opts br res res' r
    calc (List.foldl (migrateEslintRule table opts)
            (migrateEslintRule table opts (br, res) r) rs).1
        = (List.foldl (migrateEslintRule table opts)
            ((migrateEslintRule table opts (br, res) r).1,
             (migrateEslintRule table opts (br, res) r).2) rs).1 := rfl
      _ = (List.foldl (migrateEslintRule table opts)
            ((migrateEslintRule table opts (br, res') r).1,
             (migrateEslintRule table opts (br, res) r).2) rs).1 := by rw [h1]
      _ = (List.foldl (migrateEslintRule table opts)
            ((migrateEslintRule table opts (br, res') r).1,
             (migrateEslintRule table opts (br, res') r).2) rs).1 := ih _ _ _
      _ = (List.foldl (migrateEslintRule table opts)
            (migrateEslintRule table opts (br, res') r) rs).1 := rfl

theorem into_biome_rules_fst (rs : Rules) (opts : MigrationOptions)
    (table : MigrationTable) (res res' : MigrationResults) :
    (intoBiomeRules rs opts table res).1
      = (intoBiomeRules rs opts table res').1 :=
  foldl_migrate_fst table opts rs [] res res'

theorem migrate_override_fst (table : MigrationTable)
    (opts : MigrationOptions) (o : OverrideConfigData)
    (res : MigrationResults) :
    (migrateOverride table opts o res).1 = overridePatternOf table opts o := by
  unfold overridePatternOf migrateOverride
  by_cases hr : Rules.isEmpty o.rules = true
  · simp only [hr, if_true]
  · simp only [hr, Bool.false_eq_true, if_false]
    have := into_biome_rules_fst o.rules opts table res {}
    simp only [this]

theorem migrate_override_javascript (table : MigrationTable)
    (opts : MigrationOptions) (o : OverrideConfigData)
    (res : MigrationResults) :
    ((migrateOverride table opts o res).1).javascript
      = if o.globals.isEmpty then none
        else some { globals := some (stringSet (o.globals.map Prod.fst)) } := by
  unfold migrateOverride
  by_cases hg : o.globals.isEmpty = true <;>
    by_cases he : Shorthand.isEmpty o.excluded_files = true <;>
      by_cases hf : Shorthand.isEmpty o.files = true <;>
        by_cases hr : Rules.isEmpty o.rules = true <;>
          simp [hg, he, hf, hr]

theorem into_biome_config_javascript (table : MigrationTable)
    (opts : MigrationOptions) (c : ConfigData) :
    ((intoBiomeConfig table opts c).1).javascript
      = if c.globals.isEmpty then none
        else some { globals := some (stringSet (c.globals.filterMap
            (fun p => if GlobalConf.is_enabled p.2 then some p.1 else none))) } := by
  unfold intoBiomeConfig
  by_cases hg : c.globals.isEmpty = true <;>
    by_cases hi : Shorthand.isEmpty c.ignore_patterns = true <;>
      by_cases hr : Rules.isEmpty c.rules = true <;>
        by_cases ho : c.overrides.isEmpty = true <;>
          simp [hg, hi, hr, ho]

theorem overrides_foldl_patterns (table : MigrationTable)
    (opts : MigrationOptions) :
    ∀ (os : List OverrideConfigData) (pats : List OverridePattern)
      (res : MigrationResults),
      (List.foldl (fun acc o =>
        let pr := migrateOverride table opts o acc.2
        (acc.1 ++ [pr.1], pr.2)) (pats, res) os).1
      = pats ++ os.map (overridePatternOf table opts) := by
  intro os
  induction os with
  | nil => intro pats res; simp
  | cons o os ih =>
    intro pats res
    simp only [List.foldl_cons, List.map_cons]
    rw [ih]
    rw [migrate_override_fst]
    simp

theorem into_biome_config_overrides (table : MigrationTable)
    (opts : MigrationOptions) (c : ConfigData) :
    ((intoBiomeConfig table opts c).1).overrides
      = if c.overrides.isEmpty then none
        else some (c.overrides.map (overridePatternOf table opts)) := by
  unfold intoBiomeConfig
  by_cases hg : c.globals.isEmpty = true <;>
    by_cases hi : Shorthand.isEmpty c.ignore_patterns = true <;>
      by_cases hr : Rules.isEmpty c.rules = true <;>
        by_cases ho : c.overrides.isEmpty = true <;>
          simp [hg, hi, hr, ho, overrides_foldl_patterns]

theorem into_biome_config_linter (table : MigrationTable)
    (opts : MigrationOptions) (c : ConfigData) :
    ((intoBiomeConfig table opts c).1).linter
      = some { ignore := if Shorthand.isEmpty c.ignore_patterns then none
                 else some (stringSet c.ignore_patterns.toList),
               rules := if Rules.isEmpty c.rules then none
                 else some ((intoBiomeRules c.rules opts table {}).1) } := by
  unfold intoBiomeConfig
  by_cases hg : c.globals.isEmpty = true <;>
    by_cases hi : Shorthand.isEmpty c.ignore_patterns = true <;>
      by_cases hr : Rules.isEmpty c.rules = true <;>
        by_cases ho : c.overrides.isEmpty = true <;>
          simp [hg, hi, hr, ho]

theorem jsGlobalsOf_into_biome_config (table : MigrationTable)
    (opts : MigrationOptions) (c : ConfigData) :
    jsGlobalsOf (intoBiomeConfig table opts c).1
      = if c.globals.isEmpty then []
        else stringSet (c.globals.filterMap
          (fun p => if GlobalConf.is_enabled p.2 then some p.1 else none)) := by
  unfold jsGlobalsOf
  rw [into_biome_config_javascript]
  by_cases hg : c.globals.isEmpty = true <;> simp [hg]

theorem mem_jsGlobalsOf (table : MigrationTable) (opts : MigrationOptions)
    (c : ConfigData) (n : String) :
    n ∈ jsGlobalsOf (intoBiomeConfig table opts c).1
      ↔ ∃ g, (n, g) ∈ c.globals ∧ GlobalConf.is_enabled g = true := by
  rw [jsGlobalsOf_into_biome_config]
  by_cases hg : c.globals.isEmpty = true
  · have : c.globals = [] := List.isEmpty_iff.mp hg
    rw [this]
    simp [hg]
  · rw [if_neg hg, mem_stringSet, List.mem_filterMap]
    constructor
    · rintro ⟨⟨a, g⟩, hmem, hf⟩
      by_cases he : GlobalConf.is_enabled g = true
      · refine ⟨g, ?_, he⟩
        simp only [he, if_true] at hf
        obtain rfl := (Option.some.injEq _ _).mp hf
        exact hmem
      · simp [he] at hf
    · rintro ⟨g, hmem, he⟩
      exact ⟨(n, g), hmem, by simp [he]⟩

theorem patternGlobalsOf_overridePatternOf (table : MigrationTable)
    (opts : MigrationOptions) (o : OverrideConfigData) :
    patternGlobalsOf (overridePatternOf table opts o)
      = if o.globals.isEmpty then []
        else stringSet (o.globals.map Prod.fst) := by
  unfold patternGlobalsOf overridePatternOf
  rw [migrate_override_javascript]
  by_cases hg : o.globals.isEmpty = true <;> simp [hg]

/-- C1 (amended): when two `Rules` sets are merged, and when duplicate
rule names are inserted while decoding a rules map, the resulting set
never contains two entries with the same name (given name-unique
operands, which every set built by this module is); but for a rule name
configured in both operands the merged set holds the EARLIER (base)
operand's entry — the later/incoming duplicate is discarded, because
`HashSet::insert`/`extend` keep the existing element — and a name
absent from the base is resolved to the incoming operand's first entry
of that name.  Likewise decoding keeps the FIRST successfully decoded
entry for a duplicated rule name. -/
theorem c1_rules_merge_keeps_earlier :
    (∀ s o : Rules, rulesNodupNames s → rulesNodupNames (Rules.mergeWith s o))
    ∧ (∀ (s o : Rules) (n : String), (Rules.find s n).isSome →
        Rules.find (Rules.mergeWith s o) n = Rules.find s n)
    ∧ (∀ (s o : Rules) (n : String), Rules.find s n = none →
        Rules.find (Rules.mergeWith s o) n = Rules.find o n)
    ∧ (∀ entries : List (Value × Value),
        rulesNodupNames (Rules.visitMap entries))
    ∧ (∀ (entries : List (Value × Value)) (n : String),
        Rules.find (Rules.visitMap entries) n
          = List.find? (fun r => ruleName r == n)
              (entries.filterMap decodeRuleEntry)) :=
  ⟨fun _ o h => rules_nodup_merge o h,
    fun _ o n h => rules_find_merge_of_isSome o (n := n) h,
    fun _ o n h => rules_find_merge_of_none o (n := n) h,
    rules_visitMap_nodup,
    rules_visitMap_find⟩

/-- C1, counterexample to the claim as stated: merging the set
`{no-var: off}` with the set `{no-var: error}` yields `{no-var: off}` —
the later operand's entry does NOT overwrite the earlier one. -/
theorem c1_later_overwrites_counterexample :
    Rules.mergeWith [Rule.Any "no-var" Severity.Off]
        [Rule.Any "no-var" Severity.Error]
      = [Rule.Any "no-var" Severity.Off]
    ∧ Rules.find (Rules.mergeWith [Rule.Any "no-var" Severity.Off]
          [Rule.Any "no-var" Severity.Error]) "no-var"
      ≠ some (Rule.Any "no-var" Severity.Error) := by
  decide

/-- C3: for any primary option decoder (the declared primary type not
unit, the secondary type unit, as for all five option-carrying rules),
decoding `[severity, valid_primary, garbage]` where the severity and
the primary decode and the third element fails to decode as a primary
option yields `Option(severity, valid_primary)`, never a total
failure. -/
theorem c3_trailing_garbage_recovered {T U : Type} (decT : Value → Option T)
    (decU : Value → Option U) (v0 v1 v2 : Value) (s : Severity) (p : T)
    (h0 : Severity.deserialize v0 = some s) (h1 : decT v1 = some p)
    (h2 : decT v2 = none) :
    (ruleConfDeserialize false true decT decU (Value.arr [v0, v1, v2])).1
      = some (RuleConf.Option s p) := by
  simp [ruleConfDeserialize, ruleConfVisitArray, h0, h1, h2]

/-- C3, witness: the `no-restricted-globals` decoder on
`["error", "foo", 3]` recovers to `Option(error, "foo")`. -/
theorem c3_trailing_garbage_recovered_witness :
    (ruleConfDeserialize false true NoRestrictedGlobal.deserialize decodeUnit
        (Value.arr [Value.str "error", Value.str "foo", Value.num 3])).1
      = some (RuleConf.Option Severity.Error (NoRestrictedGlobal.Plain "foo")) :=
  c3_trailing_garbage_recovered NoRestrictedGlobal.deserialize decodeUnit
    (Value.str "error") (Value.str "foo") (Value.num 3) Severity.Error
    (NoRestrictedGlobal.Plain "foo") (by decide) (by decide) (by decide)

/-- C4: decoding a `Severity` from the number 0 and the string "off"
yields `Off`, from 1 and "warn" yields `Warn`, from 2 and "error"
yields `Error`; every other number and every other string fails to
decode. -/
theorem c4_severity_decode :
    (Severity.deserialize (Value.num 0) = some Severity.Off
      ∧ Severity.deserialize (Value.str "off") = some Severity.Off
      ∧ Severity.deserialize (Value.num 1) = some Severity.Warn
      ∧ Severity.deserialize (Value.str "warn") = some Severity.Warn
      ∧ Severity.deserialize (Value.num 2) = some Severity.Error
      ∧ Severity.deserialize (Value.str "error") = some Severity.Error)
    ∧ (∀ n : Nat, n ≠ 0 → n ≠ 1 → n ≠ 2 →
        Severity.deserialize (Value.num n) = none)
    ∧ (∀ s : String, s ≠ "off" → s ≠ "warn" → s ≠ "error" →
        Severity.deserialize (Value.str s) = none) := by
  refine ⟨by decide, ?_, ?_⟩
  · intro n h0 h1 h2
    match n, h0, h1, h2 with
    | n + 3, _, _, _ => rfl
    | 0, h0, _, _ => exact absurd rfl h0
    | 1, _, h1, _ => exact absurd rfl h1
    | 2, _, _, h2 => exact absurd rfl h2
  · intro s h0 h1 h2
    simp [Severity.deserialize, NumberOrString.deserialize,
      Severity.try_from, h0, h1, h2]

/-- C6: merging a `Rules` set with itself yields the identical set. -/
theorem c6_rules_merge_idempotent (s : Rules) : Rules.mergeWith s s = s := by
  apply rules_merge_self_eq
  intro r hr
  exact List.find?_isSome.mpr ⟨r, hr, by simp⟩

/-- C7: when the declared primary option type is unit, decoding an
array whose first element is a severity yields the `Severity` variant
even when further elements are present, and no further element is
passed to an option decoder (the returned trace of attempted elements
is empty, so no diagnostics are emitted for them). -/
theorem c7_unit_type_stops {T U : Type} (decT : Value → Option T)
    (decU : Value → Option U) (uIsUnit : Bool) (v0 : Value)
    (rest : List Value) (s : Severity)
    (h0 : Severity.deserialize v0 = some s) :
    ruleConfDeserialize true uIsUnit decT decU (Value.arr (v0 :: rest))
      = (some (RuleConf.Severity s), []) := by
  simp [ruleConfDeserialize, ruleConfVisitArray, h0]

/-- C7, witness: `RuleConf<(), ()>` on `[1, "junk", {}]` stops at
`Severity(warn)` with nothing handed to an option decoder. -/
theorem c7_unit_type_stops_witness :
    ruleConfDeserialize true true decodeUnit decodeUnit
        (Value.arr [Value.num 1, Value.str "junk", Value.map []])
      = (some (RuleConf.Severity Severity.Warn), []) :=
  c7_unit_type_stops decodeUnit decodeUnit true (Value.num 1)
    [Value.str "junk", Value.map []] Severity.Warn (by decide)

/-- C5: a rule explicitly configured in a configuration's rules set
keeps the user's configured entry after `resolve_extends`, whatever
presets the extends list names (the presets are merged into the
configuration whose explicit rules are already present, and the
name-keyed merge keeps the present entry). -/
theorem c5_explicit_rule_wins (c : ConfigData) (n : String) (r : Rule)
    (h : Rules.find c.rules n = some r) :
    Rules.find (ConfigData.resolve_extends c).rules n = some r := by
  unfold ConfigData.resolve_extends
  exact foldl_merge_keeps_rule _ _ n r h

/-- C5, witness: `extends = ["eslint:recommended", "eslint:all"]` with
the explicit rule `no-var: off` resolves to a rule set whose `no-var`
entry is still `off`, although `eslint:all` configures it to error. -/
theorem c5_explicit_rule_wins_witness :
    Rules.find (ConfigData.resolve_extends c5Config).rules "no-var"
      = some (Rule.Any "no-var" Severity.Off) :=
  c5_explicit_rule_wins c5Config "no-var" (Rule.Any "no-var" Severity.Off)
    (by decide)

/-- C8: `is_enabled` is the flag for a boolean global and is true for
every qualifier except `off`; the migrated base configuration's
javascript globals section exists exactly when the source globals map
is non-empty and lists exactly the enabled global names; in the
scenario, the writable `var1` and readonly `var2` are included and the
off `var3` is excluded. -/
theorem c8_globals_migration :
    (∀ b : Bool, GlobalConf.is_enabled (GlobalConf.Flag b) = b)
    ∧ (∀ q : GlobalConfQualifier,
        (GlobalConf.is_enabled (GlobalConf.Qualifier q) = true
          ↔ q ≠ GlobalConfQualifier.Off))
    ∧ (∀ (table : MigrationTable) (opts : MigrationOptions) (c : ConfigData),
        ((intoBiomeConfig table opts c).1.javascript = none ↔ c.globals = [])
        ∧ (∀ n : String, n ∈ jsGlobalsOf (intoBiomeConfig table opts c).1
            ↔ ∃ g, (n, g) ∈ c.globals ∧ GlobalConf.is_enabled g = true))
    ∧ ("var1" ∈ jsGlobalsOf (intoBiomeConfig tableEmpty optsDefault c8Config).1
        ∧ "var2" ∈ jsGlobalsOf (intoBiomeConfig tableEmpty optsDefault c8Config).1
        ∧ "var3" ∉ jsGlobalsOf (intoBiomeConfig tableEmpty optsDefault c8Config).1) := by
  refine ⟨fun b => rfl, fun q => by cases q <;> decide, ?_, by decide⟩
  intro table opts c
  constructor
  · rw [into_biome_config_javascript]
    by_cases hg : c.globals.isEmpty = true
    · simpa [hg] using List.isEmpty_iff.mp hg
    · simp only [hg, Bool.false_eq_true, if_false]
      constructor
      · intro h; cases h
      · intro h
        rw [← List.isEmpty_iff] at h
        exact absurd h hg
  · intro n
    exact mem_jsGlobalsOf table opts c n

/-- C9: every produced target override entry's globals list contains
every key of the source override's globals map — disabled globals
included, the override path applies no `is_enabled` filter (it uses
`into_keys`); in the scenario the off global `var3` still appears in
the produced entry. -/
theorem c9_override_globals_unfiltered :
    (∀ (table : MigrationTable) (opts : MigrationOptions) (c : ConfigData),
      List.Forall₂ (fun (o : OverrideConfigData) (pat : OverridePattern) =>
          ∀ n g, (n, g) ∈ o.globals → n ∈ patternGlobalsOf pat)
        c.overrides (overridesListOf (intoBiomeConfig table opts c).1))
    ∧ patternGlobalsOf
        ((overridesListOf
          (intoBiomeConfig tableEmpty optsDefault c9Config).1).headD {})
      = ["var3"] := by
  refine ⟨?_, by decide⟩
  intro table opts c
  unfold overridesListOf
  rw [into_biome_config_overrides]
  by_cases ho : c.overrides.isEmpty = true
  · rw [List.isEmpty_iff.mp ho]
    simp [ho]
  · simp only [ho, Bool.false_eq_true, if_false, Option.getD_some]
    rw [List.forall₂_map_right_iff, List.forall₂_same]
    intro o _ n g hmem
    rw [patternGlobalsOf_overridePatternOf]
    have hne : o.globals.isEmpty = false := by
      cases hgl : o.globals with
      | nil => rw [hgl] at hmem; cases hmem
      | cons a l => rfl
    rw [hne]
    simp only [Bool.false_eq_true, if_false]
    rw [mem_stringSet]
    exact List.mem_map.mpr ⟨(n, g), hmem, rfl⟩

/-- C10: `resolve_extends` changes only the `extends` field (cleared)
and the rules: `env`, `globals`, `ignore_patterns` and `overrides` are
untouched, because every preset expansion carries empty non-rules
fields. -/
theorem c10_resolve_extends_frame (c : ConfigData) :
    (ConfigData.resolve_extends c).env = c.env
    ∧ (ConfigData.resolve_extends c).globals = c.globals
    ∧ (ConfigData.resolve_extends c).ignore_patterns = c.ignore_patterns
    ∧ (ConfigData.resolve_extends c).overrides = c.overrides
    ∧ (ConfigData.resolve_extends c).«extends» = Shorthand.mk [] := by
  unfold ConfigData.resolve_extends
  have hexts : ∀ d ∈ List.filterMap ConfigData.from_preset c.«extends».toList,
      d.env = [] ∧ d.globals = [] ∧ d.ignore_patterns = Shorthand.mk []
        ∧ d.overrides = [] ∧ d.«extends» = Shorthand.mk [] := by
    intro d hd
    obtain ⟨name, _, hp⟩ := List.mem_filterMap.mp hd
    exact from_preset_shape hp
  have h := foldl_merge_presets_frame
    (List.filterMap ConfigData.from_preset c.«extends».toList)
    { c with «extends» := Shorthand.mk [] } hexts
  exact ⟨h.1, h.2.1, h.2.2.1, h.2.2.2.1, h.2.2.2.2⟩

/-- C2 (evaluating the code at the failing input): migrating the
configuration whose only content is one override block with
`files = ["bin/*.js"]` and `rules = {"eqeqeq": "off"}`, under any
table mapping `eqeqeq` to a non-inspired, non-nursery target rule,
produces exactly one target override entry whose linter rules hold
only that target rule at severity off and leaves the base sections
untouched — but the file glob `bin/*.js` is stored in the entry's
`ignore` (excluded-files) field, the same field `excluded_files` is
written to, not in a field scoping the override TO those files. -/
theorem c2_override_files_written_to_ignore (table : MigrationTable)
    (opts : MigrationOptions) (e : MigEntry) (ht : table "eqeqeq" = some e)
    (hi : e.inspired = false) (hn : e.nursery = false) :
    (intoBiomeConfig table opts c2Config).1.overrides
        = some [{ ignore := some ["bin/*.js"],
                  linter := some
                    { rules := some [(e.targetName, Severity.Off)] } }]
    ∧ (intoBiomeConfig table opts c2Config).1.linter = some {}
    ∧ (intoBiomeConfig table opts c2Config).1.javascript = none := by
  refine ⟨?_, ?_, ?_⟩
  · rw [into_biome_config_overrides]
    simp [c2Config, overridePatternOf, migrateOverride, intoBiomeRules,
      migrateEslintRule, migrateEslintAnyRule, setBiomeRule, stringSet,
      Rules.isEmpty, Shorthand.isEmpty, ht, hi, hn]
  · rw [into_biome_config_linter]
    simp [c2Config, Shorthand.isEmpty, Rules.isEmpty, Rules.empty]
  · rw [into_biome_config_javascript]
    simp [c2Config]

/-- C2, witness at a concrete table (mapping `eqeqeq` to
`suspicious/noDoubleEquals`, neither inspired nor nursery). -/
theorem c2_override_files_written_to_ignore_witness :
    (intoBiomeConfig tableEqeqeq optsDefault c2Config).1.overrides
        = some [{ ignore := some ["bin/*.js"],
                  linter := some
                    { rules := some [("suspicious/noDoubleEquals", Severity.Off)] } }]
    ∧ (intoBiomeConfig tableEqeqeq optsDefault c2Config).1.linter = some {}
    ∧ (intoBiomeConfig tableEqeqeq optsDefault c2Config).1.javascript = none :=
  c2_override_files_written_to_ignore tableEqeqeq optsDefault
    { targetName := "suspicious/noDoubleEquals" } (by decide) rfl rfl
